import Mathlib

/-!
StarMinder game engine — shallow embedding.

This file embeds the simulation core of the StarMinder repository
(`src/gameEngine.ts`, with its data model from `src/types.ts`, the constant
tables from `src/constants.ts`, and the external command handlers from
`src/App.tsx`) into Lean 4, and proves or refutes the claims of the
specification against that embedding.

Modelling conventions:

* JavaScript numbers are modelled as exact rationals (`ℚ`).  The source only
  ever *branches* on comparisons of Euclidean distances against thresholds;
  every such comparison `dist a b < c` is embedded in the exact squared form
  `0 < c ∧ distSq a b < c^2`, which over the reals is equivalent to
  `Real.sqrt (distSq a b) < c` (the equivalences are proved below as
  `sqrt_lt_iff_distLtB`, `sqrt_le_iff_distLeB`, `sqrt_gt_iff_distGtB`).
* Genuinely transcendental *magnitudes* (`Math.atan2`, `Math.cos`,
  `Math.sin`, the value of `Math.sqrt` when it feeds further arithmetic such
  as steering normalisation) and the ambient randomness (`Math.random()`)
  are modelled by an oracle environment `Env`: an arbitrary package of
  functions supplied to the update function.  All claims proved here are
  either independent of the oracle values or universally quantified over the
  environment.
* Entity ids (`e-${Date.now()}-${Math.random()}` strings in the source) are
  modelled as natural numbers drawn from the oracle; the source only ever
  compares ids for equality.
* Mutation of the single world-state object is modelled by explicit state
  passing; the randomness consumption is threaded as a draw counter `k`
  indexing into `Env.rand` / `Env.freshId`.
-/

namespace StarMinder

/-- Planar vector (source: `types.ts`, `Vector2`). -/
structure Vec2 where
  x : ℚ
  y : ℚ
deriving DecidableEq

/-- Squared Euclidean distance.  The source helper `dist` (gameEngine.ts line
13) is `Math.sqrt` of this quantity; comparisons against thresholds are
embedded through the squared form (see `distLtB` etc. below). -/
def distSq (a b : Vec2) : ℚ :=
  (b.x - a.x) ^ 2 + (b.y - a.y) ^ 2

/-- Embedding of the source comparison `dist a b < c`. -/
def distLtB (a b : Vec2) (c : ℚ) : Bool :=
  decide (0 < c) && decide (distSq a b < c ^ 2)

/-- Embedding of the source comparison `dist a b <= c`. -/
def distLeB (a b : Vec2) (c : ℚ) : Bool :=
  decide (0 ≤ c) && decide (distSq a b ≤ c ^ 2)

/-- Embedding of the source comparison `dist a b > c`. -/
def distGtB (a b : Vec2) (c : ℚ) : Bool :=
  decide (c < 0) || decide (c ^ 2 < distSq a b)

/-- Clamp of the projection parameter, `Math.max(0, Math.min(1, t))`. -/
def clamp01 (t : ℚ) : ℚ := max 0 (min 1 t)

/-- Game phases (source: `types.ts`, `GamePhase`). -/
inductive GamePhase where
  | INTRO | IDLE | WARPING | SCANNING | LEVEL_UP | GAME_OVER | VICTORY
deriving DecidableEq

/-- Enemy kinds (source: `types.ts`, `EnemyType`). -/
inductive EnemyType where
  | TANK | RANGED | SWARM | BOSS
deriving DecidableEq

/-- Weapon kinds (source: `types.ts`, `WeaponType`). -/
inductive WeaponType where
  | MACHINE_GUN | MISSILE | LASER
deriving DecidableEq

/-- Projectile kind tags (source: `types.ts`, `Projectile.type`). -/
inductive ProjectileType where
  | BULLET | MISSILE | LASER_BEAM | ENEMY_ORB
deriving DecidableEq

/-- Per-weapon state (source: `types.ts`, `Player.weapons` entries). -/
structure Weapon where
  level : ℕ
  cooldown : ℚ
  maxCooldown : ℚ
  damage : ℚ
  range : ℚ
deriving DecidableEq

/-- The player's three weapon slots.  `Object.entries` iterates them in
insertion order: machine gun, missile, laser (gameEngine.ts lines 56-60). -/
structure PlayerWeapons where
  mg : Weapon
  missile : Weapon
  laser : Weapon
deriving DecidableEq

/-- Player state (source: `types.ts`, `Player`). -/
structure Player where
  id : ℕ
  position : Vec2
  velocity : Vec2
  radius : ℚ
  color : String
  rotation : ℚ
  hp : ℚ
  maxHp : ℚ
  xp : ℚ
  maxXp : ℚ
  level : ℕ
  crystals : ℕ
  weapons : PlayerWeapons
deriving DecidableEq

/-- Enemy state (source: `types.ts`, `Enemy`). -/
structure Enemy where
  id : ℕ
  position : Vec2
  velocity : Vec2
  radius : ℚ
  color : String
  rotation : ℚ
  type : EnemyType
  hp : ℚ
  maxHp : ℚ
  attackCooldown : ℚ
deriving DecidableEq

/-- Projectile state (source: `types.ts`, `Projectile`). -/
structure Projectile where
  id : ℕ
  position : Vec2
  velocity : Vec2
  radius : ℚ
  color : String
  rotation : ℚ
  damage : ℚ
  targetId : Option ℕ
  duration : ℚ
  isEnemy : Bool
  type : ProjectileType
deriving DecidableEq

/-- Cosmetic particle (source: `types.ts`, `Particle`). -/
structure Particle where
  id : ℕ
  position : Vec2
  velocity : Vec2
  radius : ℚ
  color : String
  rotation : ℚ
  life : ℚ
  maxLife : ℚ
  scale : ℚ
deriving DecidableEq

/-- Asteroid (source: `types.ts`, `Asteroid`). -/
structure Asteroid where
  id : ℕ
  position : Vec2
  velocity : Vec2
  radius : ℚ
  color : String
  rotation : ℚ
  isTarget : Bool
  isScanned : Bool
deriving DecidableEq

/-- Floating combat text (source: `types.ts`, `FloatingText`). -/
structure FloatingText where
  id : ℕ
  text : String
  position : Vec2
  life : ℚ
  color : String
  size : ℚ
deriving DecidableEq

/-- Experience orb (source: `types.ts`, `XpOrb`). -/
structure XpOrb where
  id : ℕ
  position : Vec2
  velocity : Vec2
  radius : ℚ
  color : String
  rotation : ℚ
  value : ℚ
  isMagnetized : Bool
deriving DecidableEq

/-- Expanding EMP ring (source: `types.ts`, `Shockwave`). -/
structure Shockwave where
  position : Vec2
  radius : ℚ
  maxRadius : ℚ
  speed : ℚ
  color : String
deriving DecidableEq

/-- The aggregate world state (source: `types.ts`, `GameState`). -/
structure GameState where
  phase : GamePhase
  player : Player
  enemies : List Enemy
  projectiles : List Projectile
  particles : List Particle
  asteroids : List Asteroid
  floatingTexts : List FloatingText
  xpOrbs : List XpOrb
  shockwaves : List Shockwave
  cameraShake : ℚ
  scanTimer : ℚ
  warpTimer : ℚ
  scanTargetId : Option ℕ
  waveTimer : ℚ
  magnetTimer : ℚ
  justLeveledUp : Bool
  levelUpQueued : Bool
  justScanned : Bool
deriving DecidableEq

/-! Constant tables (source: `constants.ts`). -/

def SCREEN_WIDTH : ℚ := 1200
def SCREEN_HEIGHT : ℚ := 720

def TARGET_CRYSTALS : ℕ := 10
def SCAN_DURATION_SEC : ℚ := 90
def WARP_DURATION_SEC : ℚ := 10

def ASTEROID_CONFIG_min : ℕ := 10
def ASTEROID_CONFIG_max : ℕ := 20

def PLAYER_CONFIG_baseHp : ℚ := 100
def PLAYER_CONFIG_baseXp : ℚ := 100
def PLAYER_CONFIG_hpGrowth : ℚ := 20
def PLAYER_CONFIG_xpGrowth : ℚ := 2
def PLAYER_CONFIG_magnetRange : ℚ := 150
def PLAYER_CONFIG_magnetSpeed : ℚ := 10
def PLAYER_CONFIG_passiveSpeed : ℚ := 2

def COLORS_player : String := "#3b82f6"
def COLORS_enemyTank : String := "#ef4444"
def COLORS_enemyRanged : String := "#f59e0b"
def COLORS_enemySwarm : String := "#a855f7"
def COLORS_enemyBoss : String := "#7f1d1d"
def COLORS_asteroid : String := "#4b5563"
def COLORS_asteroidTarget : String := "#10b981"
def COLORS_xpOrb : String := "#22d3ee"
def COLORS_textDamage : String := "#fff"
def COLORS_shockwave : String := "#06b6d4"

def TEXT_emp : String := "EMP"
def TEXT_bossDefeated : String := "BOSS DEFEATED"

/-- Per-weapon constant stats (source: `constants.ts`, `WEAPON_STATS`). -/
structure WeaponStats where
  cooldown : ℚ
  damage : ℚ
  range : ℚ
  color : String

def WEAPON_STATS : WeaponType → WeaponStats
  | WeaponType.MACHINE_GUN => { cooldown := 10, damage := 15, range := 400, color := "#ffff00" }
  | WeaponType.MISSILE => { cooldown := 120, damage := 80, range := 600, color := "#ffaa00" }
  | WeaponType.LASER => { cooldown := 1, damage := 2, range := 300, color := "#06b6d4" }

/-- Per-enemy-type constant stats (source: `constants.ts`, `ENEMY_STATS`). -/
structure EnemyStats where
  hp : ℚ
  speed : ℚ
  radius : ℚ
  score : ℚ

def ENEMY_STATS : EnemyType → EnemyStats
  | EnemyType.TANK => { hp := 300, speed := 0.1375, radius := 25, score := 50 }
  | EnemyType.RANGED => { hp := 100, speed := 0.175, radius := 18, score := 30 }
  | EnemyType.SWARM => { hp := 30, speed := 0.5, radius := 10, score := 10 }
  | EnemyType.BOSS => { hp := 5000, speed := 0.015, radius := 60, score := 500 }

/-- Oracle environment.  `rand k` models the `k`-th `Math.random()` draw of a
tick, `freshId k` models the random entity-id string generated at the `k`-th
draw site, and the remaining fields model the transcendental library
functions where their *values* (not mere threshold comparisons) feed further
arithmetic.  `pi` models `Math.PI`.  No axioms are imposed; every theorem
below is universally quantified over the environment or independent of it. -/
structure Env where
  rand : ℕ → ℚ
  freshId : ℕ → ℕ
  sqrt : ℚ → ℚ
  atan2 : ℚ → ℚ → ℚ
  cos : ℚ → ℚ
  sin : ℚ → ℚ
  pi : ℚ

/-- A concrete environment (all draws zero) used to evaluate the model on
explicit inputs.  Every concrete evaluation below only exercises code paths
whose outcome does not depend on the oracle values. -/
def env0 : Env :=
  { rand := fun _ => 0
    freshId := fun _ => 0
    sqrt := fun _ => 0
    atan2 := fun _ _ => 0
    cos := fun _ => 0
    sin := fun _ => 0
    pi := 0 }

/-- Floor into ℚ, `Math.floor`. -/
def floorQ (q : ℚ) : ℚ := (⌊q⌋ : ℚ)

/-- Squared distance from the asteroid centre to the closest point of the
segment `[s, e]` (gameEngine.ts lines 20-29): clamped-projection parameter
`t = ((c-s)·(e-s))/|e-s|²` and squared distance to the projected point.
Only called when `distSq s e ≠ 0`. -/
def segDistSq (s e c : Vec2) : ℚ :=
  let l2 := distSq s e
  let t := ((c.x - s.x) * (e.x - s.x) + (c.y - s.y) * (e.y - s.y)) / l2
  let tc := clamp01 t
  let projX := s.x + tc * (e.x - s.x)
  let projY := s.y + tc * (e.y - s.y)
  (c.x - projX) ^ 2 + (c.y - projY) ^ 2

/-- Test of one asteroid in `isLineBlocked` (gameEngine.ts lines 18-36):
degenerate segments are skipped (`l2 === 0` → `continue`), otherwise the
squared distance from the asteroid centre to the segment is compared
strictly against the squared radius. -/
def isLineBlockedOne (s e : Vec2) (ast : Asteroid) : Bool :=
  if distSq s e = 0 then false
  else decide (segDistSq s e ast.position < ast.radius ^ 2)

/-- Line-of-sight occlusion test (source: `gameEngine.ts`, `isLineBlocked`,
lines 17-38).  The source returns `true` on the first blocking asteroid;
`List.any` has the same result. -/
def isLineBlocked (s e : Vec2) (asteroids : List Asteroid) : Bool :=
  asteroids.any (isLineBlockedOne s e)

/-! Spawning subsystem (source: `gameEngine.ts` lines 80-192). -/

/-- Weapon-slot lookup; `Object.entries(player.weapons)` iterates the slots
in insertion order machine-gun, missile, laser. -/
def PlayerWeapons.get (w : PlayerWeapons) : WeaponType → Weapon
  | WeaponType.MACHINE_GUN => w.mg
  | WeaponType.MISSILE => w.missile
  | WeaponType.LASER => w.laser

/-- Weapon-slot update. -/
def PlayerWeapons.set (w : PlayerWeapons) : WeaponType → Weapon → PlayerWeapons
  | WeaponType.MACHINE_GUN, v => { w with mg := v }
  | WeaponType.MISSILE, v => { w with missile := v }
  | WeaponType.LASER, v => { w with laser := v }

/-- Enemy creation (source: `spawnEnemy`, gameEngine.ts lines 81-125).  Edge
and type draws use `Math.floor(Math.random()*4)`-style indexing; the `% 4`
(resp. the cascaded comparisons) makes the model total for oracle draws
outside `[0,1)`, and agrees with the source whenever the draw is in that
interval. -/
def spawnEnemy (env : Env) (forceType : Option EnemyType) (position : Option Vec2)
    (s : GameState) (k : ℕ) : GameState × ℕ :=
  let buffer : ℚ := 80
  let posk : Vec2 × ℕ :=
    match position with
    | some p => (p, k)
    | none =>
      let edge := Int.toNat ⌊env.rand k * 4⌋ % 4
      let pos : Vec2 :=
        if edge = 0 then ⟨env.rand (k + 1) * SCREEN_WIDTH, -buffer⟩
        else if edge = 1 then ⟨SCREEN_WIDTH + buffer, env.rand (k + 1) * SCREEN_HEIGHT⟩
        else if edge = 2 then ⟨env.rand (k + 1) * SCREEN_WIDTH, SCREEN_HEIGHT + buffer⟩
        else ⟨-buffer, env.rand (k + 1) * SCREEN_HEIGHT⟩
      (pos, k + 2)
  let pos := posk.1
  let k := posk.2
  let etk : EnemyType × ℕ :=
    match forceType with
    | some t => (t, k)
    | none =>
      let r := env.rand k
      let hasBoss := s.enemies.any (fun e => e.type = EnemyType.BOSS)
      let t :=
        if !hasBoss && decide (r > 0.99) && decide (s.scanTimer > 20) then EnemyType.BOSS
        else if r > 0.8 then EnemyType.TANK
        else if r > 0.6 then EnemyType.RANGED
        else EnemyType.SWARM
      (t, k + 1)
  let etype := etk.1
  let k := etk.2
  let stats := ENEMY_STATS etype
  let enemy : Enemy :=
    { id := env.freshId k
      position := pos
      velocity := ⟨0, 0⟩
      rotation := 0
      type := etype
      radius := stats.radius
      color :=
        if etype = EnemyType.BOSS then COLORS_enemyBoss
        else if etype = EnemyType.TANK then COLORS_enemyTank
        else if etype = EnemyType.RANGED then COLORS_enemyRanged
        else COLORS_enemySwarm
      hp := stats.hp
      maxHp := stats.hp
      attackCooldown := env.rand (k + 1) * 200 }
  ({ s with enemies := s.enemies ++ [enemy] }, k + 2)

/-- Rejection sampling of one asteroid position (source: the `do … while
(d < 150)` loop in `spawnAsteroids`, gameEngine.ts lines 136-139).  The
source loops until the sample is at least 150 from the player; the model
carries a fuel bound and accepts the last sample on exhaustion (the source
would keep drawing; no claim depends on asteroid placement). -/
def sampleAsteroidPos (env : Env) (playerPos : Vec2) : ℕ → ℕ → Vec2 × ℕ
  | 0, k => (⟨env.rand k * SCREEN_WIDTH, env.rand (k + 1) * SCREEN_HEIGHT⟩, k + 2)
  | fuel + 1, k =>
    let p : Vec2 := ⟨env.rand k * SCREEN_WIDTH, env.rand (k + 1) * SCREEN_HEIGHT⟩
    if distLtB p playerPos 150 then sampleAsteroidPos env playerPos fuel (k + 2)
    else (p, k + 2)

/-- One asteroid of the regenerated field (source: loop body of
`spawnAsteroids`, gameEngine.ts lines 133-151); ids are `ast-${i}`, modelled
as the index `i`. -/
def mkAsteroid (env : Env) (playerPos : Vec2) (i : ℕ) (k : ℕ) : Asteroid × ℕ :=
  let r1 := sampleAsteroidPos env playerPos 1000 k
  let pos := r1.1
  let k := r1.2
  ({ id := i
     position := pos
     velocity := ⟨(env.rand k - 0.5) * 0.2, (env.rand (k + 1) - 0.5) * 0.2⟩
     radius := 20 + env.rand (k + 2) * 30
     rotation := env.rand (k + 3) * env.pi * 2
     color := COLORS_asteroid
     isTarget := false
     isScanned := false }, k + 4)

/-- Builds `n` asteroids with ids starting at `i`. -/
def mkAsteroids (env : Env) (playerPos : Vec2) : ℕ → ℕ → ℕ → List Asteroid × ℕ
  | 0, _, k => ([], k)
  | n + 1, i, k =>
    let r2 := mkAsteroid env playerPos i k
    let a := r2.1
    let k := r2.2
    let r3 := mkAsteroids env playerPos n (i + 1) k
    let rest := r3.1
    let k := r3.2
    (a :: rest, k)

/-- Asteroid-field regeneration (source: `spawnAsteroids`, gameEngine.ts
lines 127-152): a random count in `[min, max]`, the field is replaced
wholesale. -/
def spawnAsteroids (env : Env) (s : GameState) (k : ℕ) : GameState × ℕ :=
  let span := ASTEROID_CONFIG_max - ASTEROID_CONFIG_min + 1
  let count := ASTEROID_CONFIG_min + Int.toNat ⌊env.rand k * (span : ℚ)⌋ % span
  let r4 := mkAsteroids env s.player.position count 0 (k + 1)
  let asts := r4.1
  let k := r4.2
  ({ s with asteroids := asts }, k)

/-- Builds a burst of `n` particles (source: `spawnParticles` loop body,
gameEngine.ts lines 155-169). -/
def mkParticles (env : Env) (pos : Vec2) (color : String) : ℕ → ℕ → List Particle × ℕ
  | 0, k => ([], k)
  | n + 1, k =>
    let ang := env.rand k * env.pi * 2
    let speed := env.rand (k + 1) * 5 + 2
    let p : Particle :=
      { id := env.freshId (k + 2)
        position := pos
        velocity := ⟨env.cos ang * speed, env.sin ang * speed⟩
        radius := env.rand (k + 3) * 4 + 1
        color := color
        rotation := 0
        life := 40 + env.rand (k + 4) * 20
        maxLife := 60
        scale := 1 }
    let r5 := mkParticles env pos color n (k + 5)
    let rest := r5.1
    let k := r5.2
    (p :: rest, k)

/-- Particle burst, appended to the world (source: `spawnParticles`,
gameEngine.ts lines 154-170). -/
def spawnParticles (env : Env) (pos : Vec2) (count : ℕ) (color : String)
    (s : GameState) (k : ℕ) : GameState × ℕ :=
  let r6 := mkParticles env pos color count k
  let ps := r6.1
  let k := r6.2
  ({ s with particles := s.particles ++ ps }, k)

/-- Floating text, spawned 10 units above the given point (source:
`addFloatingText`, gameEngine.ts lines 172-181). -/
def addFloatingText (env : Env) (text : String) (pos : Vec2) (color : String)
    (size : ℚ) (s : GameState) (k : ℕ) : GameState × ℕ :=
  ({ s with floatingTexts := s.floatingTexts ++
      [{ id := env.freshId k
         text := text
         position := ⟨pos.x, pos.y - 10⟩
         color := color
         life := 60
         size := size }] }, k + 1)

/-- EMP shockwave creation (source: `triggerShockwave`, gameEngine.ts lines
183-192): radius 10, max radius `max(1200, 720) * 1.2 = 1440`, speed 25, and
a camera-shake pulse of 30. -/
def triggerShockwave (origin : Vec2) (s : GameState) : GameState :=
  { s with
    shockwaves := s.shockwaves ++
      [{ position := origin
         radius := 10
         maxRadius := max SCREEN_WIDTH SCREEN_HEIGHT * 1.2
         speed := 25
         color := COLORS_shockwave }]
    cameraShake := 30 }

/-- Initial world state (source: `createInitialState`, gameEngine.ts lines
41-78).  The `{ ...WEAPON_STATS.X, level, maxCooldown }` spreads initialise
each current cooldown to the stats table value. -/
def createInitialState : GameState :=
  { phase := GamePhase.INTRO
    player :=
      { id := 0
        position := ⟨SCREEN_WIDTH / 2, SCREEN_HEIGHT / 2⟩
        velocity := ⟨0, 0⟩
        radius := 20
        color := COLORS_player
        rotation := 0
        hp := PLAYER_CONFIG_baseHp
        maxHp := PLAYER_CONFIG_baseHp
        xp := 0
        maxXp := PLAYER_CONFIG_baseXp
        level := 1
        crystals := 0
        weapons :=
          { mg :=
              { level := 1
                cooldown := (WEAPON_STATS WeaponType.MACHINE_GUN).cooldown
                maxCooldown := (WEAPON_STATS WeaponType.MACHINE_GUN).cooldown
                damage := (WEAPON_STATS WeaponType.MACHINE_GUN).damage
                range := (WEAPON_STATS WeaponType.MACHINE_GUN).range }
            missile :=
              { level := 0
                cooldown := (WEAPON_STATS WeaponType.MISSILE).cooldown
                maxCooldown := (WEAPON_STATS WeaponType.MISSILE).cooldown
                damage := (WEAPON_STATS WeaponType.MISSILE).damage
                range := (WEAPON_STATS WeaponType.MISSILE).range }
            laser :=
              { level := 0
                cooldown := (WEAPON_STATS WeaponType.LASER).cooldown
                maxCooldown := (WEAPON_STATS WeaponType.LASER).cooldown
                damage := (WEAPON_STATS WeaponType.LASER).damage
                range := (WEAPON_STATS WeaponType.LASER).range } } }
    enemies := []
    projectiles := []
    particles := []
    asteroids := []
    floatingTexts := []
    xpOrbs := []
    shockwaves := []
    cameraShake := 0
    scanTimer := 0
    warpTimer := 0
    scanTargetId := none
    waveTimer := 0
    magnetTimer := 0
    justLeveledUp := false
    levelUpQueued := false
    justScanned := false }

/-! The tick pipeline (source: `updateGame`, gameEngine.ts lines 195-650). -/

/-- Enemy-spawn cadence during a scan (gameEngine.ts lines 221-230): the
spawn interval shrinks as the scan timer grows. -/
def scanSpawn (env : Env) (s : GameState) (k : ℕ) : GameState × ℕ :=
  let spawnRate := max 10 ((100 - s.scanTimer) * 0.5)
  if s.waveTimer > spawnRate then
    let r8 := spawnEnemy env none none s k
    ({ r8.1 with waveTimer := 0 }, r8.2)
  else (s, k)

/-- Scan-completion block (gameEngine.ts lines 233-251): crystal award, EMP
shockwave at the scanned asteroid, target removal and colour reset. -/
def scanFinish (env : Env) (s : GameState) (k : ℕ) : GameState × ℕ :=
  let s := { s with phase := GamePhase.IDLE,
                    player := { s.player with crystals := s.player.crystals + 1 },
                    justScanned := true }
  let sk : GameState × ℕ :=
    match s.scanTargetId with
    | none => (s, k)
    | some tid =>
      match s.asteroids.find? (fun a => a.id = tid) with
      | none => (s, k)
      | some target =>
        let s := triggerShockwave target.position s
        let r9 := spawnParticles env target.position 20 COLORS_asteroid s k
        let s := r9.1
        let k := r9.2
        ({ s with asteroids := s.asteroids.eraseP (fun a => a.id = tid) }, k)
  let s := sk.1
  let asts := s.asteroids.map (fun a =>
    { a with isTarget := false, color := if !a.isScanned then COLORS_asteroid else a.color })
  ({ s with scanTargetId := none, asteroids := asts }, sk.2)

/-- Step 1, timers (gameEngine.ts lines 201-251): the warp countdown with
full arena reset on expiry, and the scan timer with enemy spawns and scan
completion. -/
def stepTimers (env : Env) (s : GameState) (k : ℕ) : GameState × ℕ :=
  if s.phase = GamePhase.WARPING then
    let s := { s with warpTimer := s.warpTimer - 1 / 60 }
    if s.warpTimer ≤ (0 : ℚ) then
      let s := { s with phase := GamePhase.IDLE }
      let r7 := spawnAsteroids env s k
      let s := r7.1
      let k := r7.2
      ({ s with enemies := [], xpOrbs := [], projectiles := [],
                shockwaves := [], levelUpQueued := false }, k)
    else (s, k)
  else if s.phase = GamePhase.SCANNING then
    let s := { s with scanTimer := s.scanTimer + 1 / 60, waveTimer := s.waveTimer + 1 }
    let sk0 := scanSpawn env s k
    let s := sk0.1
    let k := sk0.2
    if s.scanTimer ≥ SCAN_DURATION_SEC then scanFinish env s k
    else (s, k)
  else (s, k)

/-- Single pass recording the nearest enemy satisfying `cond` (strictly
closer wins, so the first enemy in iteration order wins ties; source:
gameEngine.ts lines 254-276, with distance comparisons in squared form). -/
def nearestIdxGo (pos : Vec2) (cond : Enemy → Bool) :
    List Enemy → ℕ → Option (ℕ × ℚ) → Option (ℕ × ℚ)
  | [], _, best => best
  | e :: es, i, best =>
    let d := distSq pos e.position
    let better := cond e && (match best with | none => true | some b => decide (d < b.2))
    let best := if better then some (i, d) else best
    nearestIdxGo pos cond es (i + 1) best

/-- Index of the nearest enemy with unoccluded line of sight (used by the
machine gun and laser). -/
def nearestVisibleIdx (s : GameState) : Option ℕ :=
  (nearestIdxGo s.player.position
    (fun e => !(isLineBlocked s.player.position e.position s.asteroids))
    s.enemies 0 none).map Prod.fst

/-- Index of the nearest enemy regardless of occlusion (used by missiles). -/
def nearestAnyIdx (s : GameState) : Option ℕ :=
  (nearestIdxGo s.player.position (fun _ => true) s.enemies 0 none).map Prod.fst

/-- One weapon slot of the firing loop (source: gameEngine.ts lines
286-343).  `nv`/`na` are the nearest-visible / nearest-any indices computed
once before the loop.  The slot fires only if a target for its rule exists,
its level is positive and its cooldown is ≤ 0; if all that holds but the
target is out of range, *nothing* happens (the `else` of line 340 belongs to
the outer condition of line 292); in every other case the cooldown is
decremented. -/
def fireOne (env : Env) (wType : WeaponType) (nv na : Option ℕ)
    (s : GameState) (k : ℕ) : GameState × ℕ :=
  let weapon := s.player.weapons.get wType
  let targetIdx := if wType = WeaponType.MISSILE then na else nv
  let decremented :=
    let pw := s.player.weapons.set wType ({ weapon with cooldown := weapon.cooldown - 1 })
    { s with player := { s.player with weapons := pw } }
  match targetIdx with
  | none => (decremented, k)
  | some i =>
    match s.enemies.get? i with
    | none => (decremented, k)
    | some target =>
      if weapon.level > 0 ∧ weapon.cooldown ≤ 0 then
        if distLeB s.player.position target.position weapon.range then
          match wType with
          | WeaponType.MACHINE_GUN =>
            let proj : Projectile :=
              { id := env.freshId k
                position := s.player.position
                velocity := ⟨env.cos s.player.rotation * 10, env.sin s.player.rotation * 10⟩
                rotation := s.player.rotation
                radius := 8
                color := (WEAPON_STATS WeaponType.MACHINE_GUN).color
                damage := weapon.damage
                targetId := none
                duration := 60
                isEnemy := false
                type := ProjectileType.BULLET }
            let pw := s.player.weapons.set wType ({ weapon with cooldown := weapon.maxCooldown })
            ({ s with projectiles := s.projectiles ++ [proj],
                      player := { s.player with weapons := pw } }, k + 1)
          | WeaponType.MISSILE =>
            let proj : Projectile :=
              { id := env.freshId k
                position := s.player.position
                velocity := ⟨env.cos (s.player.rotation + (env.rand (k + 1) - 0.5)) * 2,
                             env.sin (s.player.rotation + (env.rand (k + 2) - 0.5)) * 2⟩
                rotation := s.player.rotation
                radius := 14
                color := (WEAPON_STATS WeaponType.MISSILE).color
                damage := weapon.damage
                targetId := some target.id
                duration := 180
                isEnemy := false
                type := ProjectileType.MISSILE }
            let pw := s.player.weapons.set wType ({ weapon with cooldown := weapon.maxCooldown })
            ({ s with projectiles := s.projectiles ++ [proj],
                      player := { s.player with weapons := pw } }, k + 3)
          | WeaponType.LASER =>
            let s := { s with enemies := s.enemies.set i ({ target with hp := target.hp - weapon.damage }) }
            let r10 := spawnParticles env target.position 1 COLORS_player s k
            let s := r10.1
            let k := r10.2
            let sk1 : GameState × ℕ :=
              if env.rand k > 0.8 then
                addFloatingText env (toString ⌊weapon.damage⌋) target.position COLORS_textDamage 14 s (k + 1)
              else (s, k + 1)
            let s := sk1.1
            let k := sk1.2
            let pw := s.player.weapons.set wType ({ weapon with cooldown := weapon.maxCooldown })
            ({ s with player := { s.player with weapons := pw } }, k)
        else (s, k)
      else (decremented, k)

/-- Step 2, player auto-targeting and firing (gameEngine.ts lines 253-343):
ship rotation prefers the visible target, falls back to the nearest overall
when a missile is unlocked, then the three weapon slots fire in entries
order. -/
def stepWeapons (env : Env) (s : GameState) (k : ℕ) : GameState × ℕ :=
  let nv := nearestVisibleIdx s
  let na := nearestAnyIdx s
  let s :=
    match nv.bind s.enemies.get? with
    | some e =>
      let rot := env.atan2 (e.position.y - s.player.position.y) (e.position.x - s.player.position.x)
      { s with player := { s.player with rotation := rot } }
    | none =>
      match na.bind s.enemies.get? with
      | some e =>
        if s.player.weapons.missile.level > 0 then
          let rot := env.atan2 (e.position.y - s.player.position.y) (e.position.x - s.player.position.x)
          { s with player := { s.player with rotation := rot } }
        else s
      | none => s
  let r11 := fireOne env WeaponType.MACHINE_GUN nv na s k
  let s := r11.1
  let k := r11.2
  let r12 := fireOne env WeaponType.MISSILE nv na s k
  let s := r12.1
  let k := r12.2
  fireOne env WeaponType.LASER nv na s k

/-- Boss spawner logic of the per-enemy update (source: gameEngine.ts lines
347-360): a boss decrements its attack cooldown and, on expiry, resets it to
180 and spawns three swarm enemies jittered around its position.  The state
carries only enemies spawned during this step in its `enemies` field (the JS
`forEach` caches the length, so spawned enemies are not visited this
tick). -/
def enemyBossStep (env : Env) (e0 : Enemy) (s : GameState) (k : ℕ) : Enemy × GameState × ℕ :=
  if e0.type = EnemyType.BOSS then
    let e := { e0 with attackCooldown := e0.attackCooldown - 1 }
    if e.attackCooldown ≤ 0 then
      let e := { e with attackCooldown := 180 }
      let p1 : Vec2 := ⟨e.position.x + (env.rand k - 0.5) * 50,
                        e.position.y + (env.rand (k + 1) - 0.5) * 50⟩
      let r13 := spawnEnemy env (some EnemyType.SWARM) (some p1) s (k + 2)
      let s := r13.1
      let k := r13.2
      let p2 : Vec2 := ⟨e.position.x + (env.rand k - 0.5) * 50,
                        e.position.y + (env.rand (k + 1) - 0.5) * 50⟩
      let r14 := spawnEnemy env (some EnemyType.SWARM) (some p2) s (k + 2)
      let s := r14.1
      let k := r14.2
      let p3 : Vec2 := ⟨e.position.x + (env.rand k - 0.5) * 50,
                        e.position.y + (env.rand (k + 1) - 0.5) * 50⟩
      let r15 := spawnEnemy env (some EnemyType.SWARM) (some p3) s (k + 2)
      let s := r15.1
      let k := r15.2
      (e, s, k)
    else (e, s, k)
  else (e0, s, k)

/-- Ranged stop-and-shoot or seek-plus-avoid steering of the per-enemy
update (source: gameEngine.ts lines 362-434).  A ranged enemy within 300 of
the player with line of sight halts and fires on its own 300-tick reload;
every other case runs the steering integration (whose transcendental
magnitudes come from the oracle). -/
def enemyMoveStep (env : Env) (e : Enemy) (s : GameState) (k : ℕ) : Enemy × GameState × ℕ :=
  let hasLineOfSight := !(isLineBlocked e.position s.player.position s.asteroids)
  if e.type = EnemyType.RANGED && distLtB e.position s.player.position 300 && hasLineOfSight then
    let e := { e with attackCooldown := e.attackCooldown - 1 }
    if e.attackCooldown ≤ 0 then
      let e := { e with attackCooldown := 300 }
      let ang := env.atan2 (s.player.position.y - e.position.y)
                           (s.player.position.x - e.position.x)
      let proj : Projectile :=
        { id := env.freshId k
          position := e.position
          velocity := ⟨env.cos ang * 4, env.sin ang * 4⟩
          rotation := ang
          radius := 5
          color := "#ff0000"
          damage := 1
          targetId := none
          duration := 120
          isEnemy := true
          type := ProjectileType.ENEMY_ORB }
      (e, { s with projectiles := s.projectiles ++ [proj] }, k + 1)
    else (e, s, k)
  else
    let distToPlayer := env.sqrt (distSq e.position s.player.position)
    let dirX := (s.player.position.x - e.position.x) / distToPlayer
    let dirY := (s.player.position.y - e.position.y) / distToPlayer
    let avoid :=
      s.asteroids.foldl (fun (acc : ℚ × ℚ) ast =>
        let detectionRange := ast.radius + e.radius + 60
        if distLtB e.position ast.position detectionRange then
          let distToAst := env.sqrt (distSq e.position ast.position)
          let pushAng := env.atan2 (e.position.y - ast.position.y)
                                   (e.position.x - ast.position.x)
          let force := (detectionRange - distToAst) / detectionRange
          (acc.1 + env.cos pushAng * force * 2.5, acc.2 + env.sin pushAng * force * 2.5)
        else acc) (0, 0)
    let finalX := dirX + avoid.1
    let finalY := dirY + avoid.2
    let finalLen := env.sqrt (finalX ^ 2 + finalY ^ 2)
    let fX := if finalLen > 0 then finalX / finalLen else finalX
    let fY := if finalLen > 0 then finalY / finalLen else finalY
    let speed := (ENEMY_STATS e.type).speed
    let e := { e with velocity := ⟨fX * speed, fY * speed⟩ }
    let e := { e with position := ⟨e.position.x + e.velocity.x, e.position.y + e.velocity.y⟩ }
    let e := if finalLen > 0.1 then { e with rotation := env.atan2 fY fX } else e
    (e, s, k)

/-- Contact damage of the per-enemy update (source: gameEngine.ts lines
436-440): 0.5 hp per tick while overlapping, with a small camera shake. -/
def enemyContactStep (e : Enemy) (s : GameState) : GameState :=
  if distLtB e.position s.player.position (e.radius + s.player.radius) then
    { s with player := { s.player with hp := s.player.hp - 0.5 }, cameraShake := 2 }
  else s

/-- Per-enemy update (source: gameEngine.ts lines 346-441): boss spawning,
ranged stop-and-shoot or steering, then contact damage. -/
def stepEnemyOne (env : Env) (e0 : Enemy) (s : GameState) (k : ℕ) : Enemy × GameState × ℕ :=
  let b := enemyBossStep env e0 s k
  let m := enemyMoveStep env b.1 b.2.1 b.2.2
  (m.1, enemyContactStep m.1 m.2.1, m.2.2)

/-- Fold of `stepEnemyOne` across the enemy list in iteration order. -/
def stepEnemiesGo (env : Env) : List Enemy → GameState → ℕ → List Enemy × GameState × ℕ
  | [], s, k => ([], s, k)
  | e :: es, s, k =>
    let r16 := stepEnemyOne env e s k
    let e := r16.1
    let s := r16.2.1
    let k := r16.2.2
    let r17 := stepEnemiesGo env es s k
    let rest := r17.1
    let s := r17.2.1
    let k := r17.2.2
    (e :: rest, s, k)

/-- Step 3, enemy AI (gameEngine.ts lines 345-441).  Spawned enemies are
appended after the processed originals, matching `Array.push` during a
`forEach` that cached the length. -/
def stepEnemies (env : Env) (s : GameState) (k : ℕ) : GameState × ℕ :=
  let r18 := stepEnemiesGo env s.enemies { s with enemies := [] } k
  let processed := r18.1
  let s := r18.2.1
  let k := r18.2.2
  ({ s with enemies := processed ++ s.enemies }, k)

/-- Bounded model of the homing angle-wrapping loop `while (diff < -PI) diff
+= 2*PI` (gameEngine.ts line 454); the source terminates whenever `PI > 0`,
the fuel merely makes the model total. -/
def windUp (piQ : ℚ) : ℕ → ℚ → ℚ
  | 0, d => d
  | n + 1, d => if d < -piQ then windUp piQ n (d + piQ * 2) else d

/-- Bounded model of `while (diff > PI) diff -= 2*PI` (line 455). -/
def windDown (piQ : ℚ) : ℕ → ℚ → ℚ
  | 0, d => d
  | n + 1, d => if d > piQ then windDown piQ n (d - piQ * 2) else d

/-- Homing steering, position integration and duration decrement of one
projectile (gameEngine.ts lines 447-466). -/
def integrateProjectile (env : Env) (p : Projectile) (enemies : List Enemy) : Projectile :=
  let p : Projectile :=
    match p.type, p.targetId with
    | ProjectileType.MISSILE, some tid =>
      match enemies.find? (fun e => e.id = tid) with
      | some target =>
        let ang := env.atan2 (target.position.y - p.position.y)
                             (target.position.x - p.position.x)
        let currentAng := env.atan2 p.velocity.y p.velocity.x
        let diff := windDown env.pi 1000 (windUp env.pi 1000 (ang - currentAng))
        let turnRate : ℚ := 0.1
        let newAng := currentAng + max (-turnRate) (min turnRate diff)
        { p with velocity := ⟨env.cos newAng * 4, env.sin newAng * 4⟩ }
      | none => p
    | _, _ => p
  { p with position := ⟨p.position.x + p.velocity.x, p.position.y + p.velocity.y⟩,
           duration := p.duration - 1 }

/-- Collision resolution of one (already integrated) projectile
(gameEngine.ts lines 468-510): player-fired non-missiles test asteroids
first; enemy projectiles test the player; player projectiles test enemies in
order, stopping at the first hit, with missile splash over *all* enemies
within 80 of the impact point. -/
def projectileHit (env : Env) (p : Projectile) (s : GameState) (k : ℕ) :
    Bool × GameState × ℕ :=
  if !p.isEnemy && decide (p.type ≠ ProjectileType.MISSILE) &&
     s.asteroids.any (fun ast => distLtB p.position ast.position (ast.radius + p.radius)) then
    let r19 := spawnParticles env p.position 3 COLORS_asteroid s k
    let s := r19.1
    let k := r19.2
    (true, s, k)
  else if p.isEnemy then
    if distLtB p.position s.player.position (s.player.radius + p.radius) then
      let s := { s with player := { s.player with hp := s.player.hp - p.damage },
                        cameraShake := 5 }
      let r20 := addFloatingText env ("-" ++ toString p.damage) s.player.position "#ff0000" 14 s k
      let s := r20.1
      let k := r20.2
      (true, s, k)
    else (false, s, k)
  else
    match s.enemies.findIdx? (fun e => distLtB p.position e.position (e.radius + p.radius)) with
    | none => (false, s, k)
    | some i =>
      match s.enemies.get? i with
      | none => (false, s, k)
      | some e =>
        let s := { s with enemies := s.enemies.set i ({ e with hp := e.hp - p.damage }) }
        let r21 := addFloatingText env (toString ⌊p.damage⌋) e.position "#fff" 14 s k
        let s := r21.1
        let k := r21.2
        let r22 := spawnParticles env p.position 3 "#fff" s k
        let s := r22.1
        let k := r22.2
        let s :=
          if p.type = ProjectileType.MISSILE then
            let es := s.enemies.map (fun subE =>
              if distLtB p.position subE.position 80 then
                { subE with hp := subE.hp - p.damage * 0.5 }
              else subE)
            { s with enemies := es, cameraShake := 3 }
          else s
        (true, s, k)

/-- Reverse-order projectile loop (the source iterates indices downwards so
that `splice` is safe); the recursion processes the tail (higher indices)
before the head. -/
def stepProjectilesGo (env : Env) : List Projectile → GameState → ℕ →
    List Projectile × GameState × ℕ
  | [], s, k => ([], s, k)
  | p :: ps, s, k =>
    let r23 := stepProjectilesGo env ps s k
    let rest := r23.1
    let s := r23.2.1
    let k := r23.2.2
    let p := integrateProjectile env p s.enemies
    let r24 := projectileHit env p s k
    let hit := r24.1
    let s := r24.2.1
    let k := r24.2.2
    if hit ∨ p.duration ≤ 0 then (rest, s, k) else (p :: rest, s, k)

/-- Step 4, projectile integration and collision (gameEngine.ts lines
443-515). -/
def stepProjectiles (env : Env) (s : GameState) (k : ℕ) : GameState × ℕ :=
  let r25 := stepProjectilesGo env s.projectiles { s with projectiles := [] } k
  let kept := r25.1
  let s := r25.2.1
  let k := r25.2.2
  ({ s with projectiles := kept }, k)

/-- Ring sweep of one shockwave over the enemy list (gameEngine.ts lines
525-532): an enemy is instantly destroyed iff its distance `d` to the wave
centre satisfies `d < radius` and `d > radius - 2 * speed`, with `radius`
the already-expanded radius. -/
def shockwaveSweep (env : Env) (wave : Shockwave) :
    List Enemy → GameState → ℕ → List Enemy × GameState × ℕ
  | [], s, k => ([], s, k)
  | e :: es, s, k =>
    if distLtB e.position wave.position wave.radius &&
       distGtB e.position wave.position (wave.radius - wave.speed * 2) then
      let e := { e with hp := 0 }
      let r26 := addFloatingText env TEXT_emp e.position COLORS_shockwave 20 s k
      let s := r26.1
      let k := r26.2
      let r27 := shockwaveSweep env wave es s k
      let rest := r27.1
      let s := r27.2.1
      let k := r27.2.2
      (e :: rest, s, k)
    else
      let r28 := shockwaveSweep env wave es s k
      let rest := r28.1
      let s := r28.2.1
      let k := r28.2.2
      (e :: rest, s, k)

/-- Reverse-order shockwave loop (gameEngine.ts lines 520-541): expand, sweep
enemies, and on removal (radius beyond max) check the victory condition
against the crystal count. -/
def stepShockwavesGo (env : Env) (crystals : ℕ) :
    List Shockwave → GameState → ℕ → List Shockwave × GameState × ℕ
  | [], s, k => ([], s, k)
  | w :: ws, s, k =>
    let r29 := stepShockwavesGo env crystals ws s k
    let rest := r29.1
    let s := r29.2.1
    let k := r29.2.2
    let w := { w with radius := w.radius + w.speed }
    let r30 := shockwaveSweep env w s.enemies s k
    let es := r30.1
    let s := r30.2.1
    let k := r30.2.2
    let s := { s with enemies := es }
    if w.radius > w.maxRadius then
      let s := if TARGET_CRYSTALS ≤ crystals then { s with phase := GamePhase.VICTORY } else s
      (rest, s, k)
    else (w :: rest, s, k)

/-- Step 5, shockwaves (gameEngine.ts lines 517-541). -/
def stepShockwaves (env : Env) (s : GameState) (k : ℕ) : GameState × ℕ :=
  let r31 := stepShockwavesGo env s.player.crystals s.shockwaves { s with shockwaves := [] } k
  let kept := r31.1
  let s := r31.2.1
  let k := r31.2.2
  ({ s with shockwaves := kept }, k)

/-- Reverse-order dead-enemy cleanup (gameEngine.ts lines 544-568): burst of
particles, an XP orb (magnetised at birth while a shockwave is active or a
scan just finished), and boss fanfare.  `active` is `isShockwaveActive`
captured *before* step 5 (line 518). -/
def stepCleanupGo (env : Env) (active : Bool) :
    List Enemy → GameState → ℕ → List Enemy × GameState × ℕ
  | [], s, k => ([], s, k)
  | e :: es, s, k =>
    let r32 := stepCleanupGo env active es s k
    let rest := r32.1
    let s := r32.2.1
    let k := r32.2.2
    if e.hp ≤ 0 then
      let isBoss := e.type = EnemyType.BOSS
      let r33 := spawnParticles env e.position (if isBoss then 100 else 30) e.color s k
      let s := r33.1
      let k := r33.2
      let orb : XpOrb :=
        { id := env.freshId k
          position := e.position
          velocity := ⟨0, 0⟩
          radius := if isBoss then 12 else 4
          color := COLORS_xpOrb
          rotation := 0
          value := if isBoss then 500 else 10
          isMagnetized := active || s.justScanned }
      let s := { s with xpOrbs := s.xpOrbs ++ [orb] }
      let sk2 : GameState × ℕ :=
        if isBoss then
          let r34 := addFloatingText env TEXT_bossDefeated e.position "#ffd700" 40 s (k + 1)
          let s := r34.1
          let k := r34.2
          ({ s with cameraShake := 50 }, k)
        else (s, k + 1)
      let s := sk2.1
      let k := sk2.2
      (rest, s, k)
    else (e :: rest, s, k)

/-- Step 6, cleanup of dead enemies (gameEngine.ts lines 543-568). -/
def stepCleanup (env : Env) (active : Bool) (s : GameState) (k : ℕ) : GameState × ℕ :=
  let r35 := stepCleanupGo env active s.enemies { s with enemies := [] } k
  let kept := r35.1
  let s := r35.2.1
  let k := r35.2.2
  ({ s with enemies := kept }, k)

/-- Magnetises the `n`-th orb satisfying `pred` (JS mutates the randomly
chosen element of the filtered array in place; object identity is modelled
positionally). -/
def magnetizeNth : ℕ → (XpOrb → Bool) → List XpOrb → List XpOrb
  | _, _, [] => []
  | n, pred, o :: os =>
    if pred o then
      if n = 0 then { o with isMagnetized := true } :: os
      else o :: magnetizeNth (n - 1) pred os
    else o :: magnetizeNth n pred os

/-- The multi-level-up resolution loop (gameEngine.ts lines 600-609): while
`xp ≥ maxXp`, subtract the threshold, double it (with `Math.floor`), gain a
level, raise max HP and fully heal, and queue the level-up flag.  The fuel
bound makes the recursion structural; callers pass `⌈xp⌉ + 1`, which the
lemmas below show is enough whenever `maxXp ≥ 1` (if `maxXp < 1` the source
loop itself need not terminate; that situation is unreachable, `maxXp`
starts at 100 and only doubles). -/
def resolveLevelUps : ℕ → Player → Bool → Player × Bool
  | 0, p, queued => (p, queued)
  | fuel + 1, p, queued =>
    if p.xp ≥ p.maxXp then
      let p := { p with xp := p.xp - p.maxXp }
      let p := { p with maxXp := floorQ (p.maxXp * PLAYER_CONFIG_xpGrowth) }
      let p := { p with level := p.level + 1 }
      let p := { p with maxHp := p.maxHp + PLAYER_CONFIG_hpGrowth }
      let p := { p with hp := p.maxHp }
      resolveLevelUps fuel p true
    else (p, queued)

/-- XP collection of one orb (gameEngine.ts lines 598-609). -/
def collectOrb (o : XpOrb) (p : Player) (queued : Bool) : Player × Bool :=
  let p := { p with xp := p.xp + o.value }
  resolveLevelUps (⌈p.xp⌉.toNat + 1) p queued

/-- Reverse-order orb loop (gameEngine.ts lines 587-613): drift toward the
player when magnetised or within magnet range, collect within 20 units (the
distance is read before the move, as in the source). -/
def stepOrbsGo (env : Env) : List XpOrb → GameState → ℕ → List XpOrb × GameState × ℕ
  | [], s, k => ([], s, k)
  | o :: os, s, k =>
    let r36 := stepOrbsGo env os s k
    let rest := r36.1
    let s := r36.2.1
    let k := r36.2.2
    let dLtMagnet := distLtB o.position s.player.position PLAYER_CONFIG_magnetRange
    let dLt20 := distLtB o.position s.player.position 20
    if dLtMagnet || o.isMagnetized then
      let ang := env.atan2 (s.player.position.y - o.position.y)
                           (s.player.position.x - o.position.x)
      let speed := if o.isMagnetized then PLAYER_CONFIG_magnetSpeed else PLAYER_CONFIG_passiveSpeed
      let o := { o with position := ⟨o.position.x + env.cos ang * speed,
                                     o.position.y + env.sin ang * speed⟩ }
      if dLt20 then
        let pq := collectOrb o s.player s.levelUpQueued
        let s := { s with player := pq.1, levelUpQueued := pq.2 }
        (rest, s, k)
      else (o :: rest, s, k)
    else (o :: rest, s, k)

/-- Step 7, XP orbs (gameEngine.ts lines 570-613): the 60-tick magnet timer
randomly magnetises one distant unmagnetised orb, shockwaves or a fresh scan
magnetise everything, then the orbs move and are collected. -/
def stepOrbs (env : Env) (active : Bool) (s : GameState) (k : ℕ) : GameState × ℕ :=
  let s := { s with magnetTimer := s.magnetTimer + 1 }
  let sk3 : GameState × ℕ :=
    if s.magnetTimer > 60 then
      let s := { s with magnetTimer := 0 }
      let pred := fun (o : XpOrb) => !o.isMagnetized && distGtB o.position s.player.position 200
      let cnt : ℕ := s.xpOrbs.countP pred
      if cnt > 0 then
        let idx0 : ℤ := ⌊env.rand k * (cnt : ℚ)⌋
        let idx : ℕ := idx0.toNat % cnt
        ({ s with xpOrbs := magnetizeNth idx pred s.xpOrbs }, k + 1)
      else (s, k)
    else (s, k)
  let s := sk3.1
  let k := sk3.2
  let s :=
    if s.justScanned || active then
      { s with xpOrbs := s.xpOrbs.map (fun o => { o with isMagnetized := true }) }
    else s
  let r37 := stepOrbsGo env s.xpOrbs { s with xpOrbs := [] } k
  let kept := r37.1
  let s := r37.2.1
  let k := r37.2.2
  ({ s with xpOrbs := kept }, k)

/-- JS `forEach`-with-`splice` over particles (gameEngine.ts lines 616-622):
the callback index advances even after a removal, so the element following a
removed one is skipped this tick; `fuel` is the initial length. -/
def stepParticlesJS : ℕ → ℕ → List Particle → List Particle
  | 0, _, l => l
  | fuel + 1, k, l =>
    match l.get? k with
    | none => l
    | some p =>
      let p := { p with position := ⟨p.position.x + p.velocity.x, p.position.y + p.velocity.y⟩,
                        life := p.life - 1 }
      let p := { p with scale := p.life / p.maxLife }
      if p.life ≤ 0 then stepParticlesJS fuel (k + 1) (l.eraseIdx k)
      else stepParticlesJS fuel (k + 1) (l.set k p)

/-- JS `forEach`-with-`splice` over floating texts (gameEngine.ts lines
624-628). -/
def stepTextsJS : ℕ → ℕ → List FloatingText → List FloatingText
  | 0, _, l => l
  | fuel + 1, k, l =>
    match l.get? k with
    | none => l
    | some t =>
      let t := { t with position := ⟨t.position.x, t.position.y - 0.5⟩, life := t.life - 1 }
      if t.life ≤ 0 then stepTextsJS fuel (k + 1) (l.eraseIdx k)
      else stepTextsJS fuel (k + 1) (l.set k t)

/-- Step 8, cosmetic decay of particles and floating texts (gameEngine.ts
lines 615-628). -/
def stepCosmetic (s : GameState) : GameState :=
  { s with particles := stepParticlesJS s.particles.length 0 s.particles,
           floatingTexts := stepTextsJS s.floatingTexts.length 0 s.floatingTexts }

/-- Step 9, promotion of a queued level-up once no shockwave is active
(gameEngine.ts lines 630-638). -/
def stepQueue (s : GameState) : GameState :=
  if s.levelUpQueued then
    if s.shockwaves.length = 0 then { s with justLeveledUp := true, levelUpQueued := false }
    else s
  else s

/-- Step 10, game-over check (gameEngine.ts lines 640-643). -/
def stepGameOver (s : GameState) : GameState :=
  if s.player.hp ≤ 0 then { s with phase := GamePhase.GAME_OVER } else s

/-- Camera-shake decay (gameEngine.ts lines 645-647). -/
def shakeDecay (s : GameState) : GameState :=
  let s := if s.cameraShake > 0 then { s with cameraShake := s.cameraShake * 0.9 } else s
  if s.cameraShake < 0.5 then { s with cameraShake := 0 } else s

/-- One tick of the simulation (source: `updateGame`, gameEngine.ts lines
195-650).  `INTRO`, `LEVEL_UP`, `GAME_OVER` and `VICTORY` return the state
untouched (line 197); otherwise the ten pipeline stages run in order.
`active` captures `isShockwaveActive` before the shockwave loop (line 518),
exactly as the source does. -/
def updateGame (env : Env) (s : GameState) : GameState :=
  if s.phase = GamePhase.INTRO ∨ s.phase = GamePhase.LEVEL_UP ∨
     s.phase = GamePhase.GAME_OVER ∨ s.phase = GamePhase.VICTORY then s
  else
    let r38 := stepTimers env s 0
    let s := r38.1
    let k := r38.2
    let r39 := stepWeapons env s k
    let s := r39.1
    let k := r39.2
    let r40 := stepEnemies env s k
    let s := r40.1
    let k := r40.2
    let r41 := stepProjectiles env s k
    let s := r41.1
    let k := r41.2
    let active := decide (s.shockwaves.length > 0)
    let r42 := stepShockwaves env s k
    let s := r42.1
    let k := r42.2
    let r43 := stepCleanup env active s k
    let s := r43.1
    let k := r43.2
    let r44 := stepOrbs env active s k
    let s := r44.1
    let s := stepCosmetic s
    let s := stepQueue s
    shakeDecay (stepGameOver s)

/-! External commands (source: `src/App.tsx`).  Each command is a silent
no-op outside its valid phase, per §6/§7 of the specification. -/

/-- The four upgrade effects generated by `generateUpgrades`
(App.tsx lines 539-586). -/
inductive UpgradeChoice where
  | mgDamage | missileUp | laserUp | heal
deriving DecidableEq

/-- Application of an upgrade effect (the `apply` closures of App.tsx). -/
def applyUpgradeEffect : UpgradeChoice → GameState → GameState
  | UpgradeChoice.mgDamage, s =>
    let w := s.player.weapons.mg
    let pw := { s.player.weapons with mg := { w with damage := w.damage + 5 } }
    { s with player := { s.player with weapons := pw } }
  | UpgradeChoice.missileUp, s =>
    let w := s.player.weapons.missile
    let w := { w with level := w.level + 1 }
    let w := if w.level > 1 then { w with maxCooldown := w.maxCooldown * 0.8 } else w
    { s with player := { s.player with weapons := { s.player.weapons with missile := w } } }
  | UpgradeChoice.laserUp, s =>
    let w := s.player.weapons.laser
    let w := { w with level := w.level + 1 }
    let w := if w.level > 1 then { w with damage := w.damage * 1.5 } else w
    { s with player := { s.player with weapons := { s.player.weapons with laser := w } } }
  | UpgradeChoice.heal, s =>
    { s with player := { s.player with hp := min s.player.maxHp (s.player.hp + s.player.maxHp * 0.5) } }

/-- The `start` command: `INTRO → IDLE` (App.tsx `startGame`, valid only from
the intro overlay). -/
def cmdStart (s : GameState) : GameState :=
  if s.phase = GamePhase.INTRO then { s with phase := GamePhase.IDLE } else s

/-- The `selectScanTarget` command (App.tsx `handleCanvasClick`): valid only
in `IDLE` on an existing unscanned asteroid; marks it, records its id and
enters `SCANNING` with reset timers. -/
def cmdSelectScanTarget (aid : ℕ) (s : GameState) : GameState :=
  if s.phase = GamePhase.IDLE then
    match s.asteroids.find? (fun a => a.id = aid) with
    | some a =>
      if !a.isScanned then
        { s with
          asteroids := s.asteroids.map (fun b =>
            if b.id = aid then { b with isTarget := true, color := COLORS_asteroidTarget } else b)
          scanTargetId := some aid
          phase := GamePhase.SCANNING
          scanTimer := 0
          waveTimer := 0 }
      else s
    | none => s
  else s

/-- The `warp` command (App.tsx `handleWarp`): valid only in `IDLE`. -/
def cmdWarp (s : GameState) : GameState :=
  if s.phase = GamePhase.IDLE then
    { s with phase := GamePhase.WARPING, warpTimer := WARP_DURATION_SEC }
  else s

/-- The `applyUpgrade` command (App.tsx `selectUpgrade`): valid only in
`LEVEL_UP`; applies the effect and resumes `SCANNING` when a scan target is
still recorded, else `IDLE`. -/
def cmdApplyUpgrade (u : UpgradeChoice) (s : GameState) : GameState :=
  if s.phase = GamePhase.LEVEL_UP then
    let s := applyUpgradeEffect u s
    if s.scanTargetId.isSome then { s with phase := GamePhase.SCANNING }
    else { s with phase := GamePhase.IDLE }
  else s

/-- States reachable from the initial state by ticks (each with its own
oracle draw, modelling fresh ambient randomness) and the four external
commands. -/
inductive Reachable : GameState → Prop where
  | init : Reachable createInitialState
  | tick (env : Env) {s : GameState} : Reachable s → Reachable (updateGame env s)
  | start {s : GameState} : Reachable s → Reachable (cmdStart s)
  | select (aid : ℕ) {s : GameState} : Reachable s → Reachable (cmdSelectScanTarget aid s)
  | warp {s : GameState} : Reachable s → Reachable (cmdWarp s)
  | applyUp (u : UpgradeChoice) {s : GameState} : Reachable s → Reachable (cmdApplyUpgrade u s)

/-! Concrete states used by the closed evaluations below.  Each is a small,
plausibly-in-game world; all are built so that every branch reached during
their single evaluated tick is decided by exact arithmetic, never by an
oracle value. -/

/-- Weapon block for concrete states: machine gun owned but reloading,
missile owned but reloading, laser locked. -/
def quietWeapons : PlayerWeapons :=
  { mg := { level := 1, cooldown := 1000, maxCooldown := 10, damage := 15, range := 400 }
    missile := { level := 1, cooldown := 500, maxCooldown := 120, damage := 80, range := 600 }
    laser := { level := 0, cooldown := 1, maxCooldown := 1, damage := 2, range := 300 } }

/-- A ranged enemy with a long reload (it stands still and does not shoot
when within 300 of the player with line of sight). -/
def mkRanged (i : ℕ) (pos : Vec2) (hp : ℚ) : Enemy :=
  { id := i, position := pos, velocity := ⟨0, 0⟩, radius := 18, color := COLORS_enemyRanged,
    rotation := 0, type := EnemyType.RANGED, hp := hp, maxHp := 100, attackCooldown := 1000 }

/-- World for claim C1: a player missile one unit short of a direct hit on
enemy 1 (distance 5 after moving, hit radius 18+14=32), with enemy 2 at
distance √3625 ≈ 60.2 < 80 from the impact point. -/
def stateC1 : GameState :=
  { createInitialState with
    phase := GamePhase.IDLE
    player := { createInitialState.player with weapons := quietWeapons }
    enemies := [mkRanged 1 ⟨700, 360⟩ 100, mkRanged 2 ⟨700, 420⟩ 100]
    projectiles := [{ id := 50, position := ⟨704, 360⟩, velocity := ⟨1, 0⟩, radius := 14,
                      color := "#ffaa00", rotation := 0, damage := 80, targetId := none,
                      duration := 10, isEnemy := false, type := ProjectileType.MISSILE }] }

/-- World for claim C3: the player at 0.2 hp with two enemies in contact,
each inflicting 0.5 contact damage this tick. -/
def stateC3 : GameState :=
  { createInitialState with
    phase := GamePhase.IDLE
    player := { createInitialState.player with hp := 0.2, weapons := quietWeapons }
    enemies := [mkRanged 1 ⟨600, 365⟩ 100, mkRanged 2 ⟨600, 355⟩ 100] }

/-- World for claim C4: paused in `LEVEL_UP` with a nonzero camera shake. -/
def stateC4 : GameState :=
  { createInitialState with phase := GamePhase.LEVEL_UP, cameraShake := 10 }

/-- World for claim C5: machine gun ready (cooldown 0) with its nearest
visible target at distance 500, outside the 400 range. -/
def stateC5 : GameState :=
  { createInitialState with
    phase := GamePhase.IDLE
    player := { createInitialState.player with weapons :=
      { quietWeapons with mg := { level := 1, cooldown := 0, maxCooldown := 10, damage := 15, range := 400 } } }
    enemies := [{ id := 1, position := ⟨1100, 360⟩, velocity := ⟨0, 0⟩, radius := 10,
                  color := COLORS_enemySwarm, rotation := 0, type := EnemyType.SWARM,
                  hp := 30, maxHp := 30, attackCooldown := 100 }] }

/-- World for claim C6: laser owned and ready, nearest visible enemy at
distance 100 (inside the 300 range), everything else quiet. -/
def stateC6 : GameState :=
  { createInitialState with
    phase := GamePhase.IDLE
    player := { createInitialState.player with weapons :=
      { quietWeapons with
        missile := { level := 0, cooldown := 120, maxCooldown := 120, damage := 80, range := 600 }
        laser := { level := 1, cooldown := 0, maxCooldown := 1, damage := 2, range := 300 } } }
    enemies := [mkRanged 1 ⟨700, 360⟩ 100] }

/-- World for claim C8: a shockwave whose stored radius is 50 (the claim's
example) with speed 25, and an enemy at distance 70 from its centre. -/
def stateC8 : GameState :=
  { createInitialState with
    phase := GamePhase.IDLE
    player := { createInitialState.player with weapons := quietWeapons }
    enemies := [mkRanged 1 ⟨600, 170⟩ 100]
    shockwaves := [{ position := ⟨600, 100⟩, radius := 50, maxRadius := 1440, speed := 25,
                     color := COLORS_shockwave }] }

/-- World for claim C10: the warp countdown about to expire with a queued
level-up and a populated arena. -/
def stateC10 : GameState :=
  { createInitialState with
    phase := GamePhase.WARPING
    warpTimer := 1 / 100
    levelUpQueued := true
    enemies := [mkRanged 1 ⟨700, 360⟩ 100]
    xpOrbs := [{ id := 7, position := ⟨650, 360⟩, velocity := ⟨0, 0⟩, radius := 4,
                 color := COLORS_xpOrb, rotation := 0, value := 10, isMagnetized := false }]
    shockwaves := [{ position := ⟨600, 100⟩, radius := 50, maxRadius := 1440, speed := 25,
                     color := COLORS_shockwave }] }

/-- The six world-state fields that the entity-processing stages never
touch: phase, crystal count, shockwave list, warp timer, scan target and
asteroid field. -/
def Frame (a b : GameState) : Prop :=
  a.phase = b.phase ∧ a.player.crystals = b.player.crystals ∧ a.shockwaves = b.shockwaves ∧
  a.warpTimer = b.warpTimer ∧ a.scanTargetId = b.scanTargetId ∧ a.asteroids = b.asteroids

/-- The whole-tick pipeline after the timer stage (gameEngine.ts lines
253-650), factored out of `updateGame` for the invariant proofs. -/
def tickRest (env : Env) (s : GameState) (k : ℕ) : GameState :=
  let r39 := stepWeapons env s k
  let s := r39.1
  let k := r39.2
  let r40 := stepEnemies env s k
  let s := r40.1
  let k := r40.2
  let r41 := stepProjectiles env s k
  let s := r41.1
  let k := r41.2
  let active := decide (s.shockwaves.length > 0)
  let r42 := stepShockwaves env s k
  let s := r42.1
  let k := r42.2
  let r43 := stepCleanup env active s k
  let s := r43.1
  let k := r43.2
  let r44 := stepOrbs env active s k
  let s := r44.1
  let s := stepCosmetic s
  let s := stepQueue s
  shakeDecay (stepGameOver s)

/-- Shape of every shockwave ever created by the game: EMP parameters with a
radius between its birth value and the max radius. -/
def WaveOK (w : Shockwave) : Prop :=
  w.speed = 25 ∧ w.maxRadius = 1440 ∧ 10 ≤ w.radius ∧ w.radius ≤ 1440

/-- Inductive invariant of the reachable states: all shockwaves are
well-formed EMP waves, `LEVEL_UP` never occurs (the tick pipeline only
raises the `justLeveledUp` flag; the phase change is made by the UI layer,
which is outside the modelled command set), `GAME_OVER` implies a dead
player, a scan always has its recorded target among the asteroids, and once
the crystal target is reached a live shockwave protects every non-terminal
phase - with, during a warp, enough warp time left to outlive every wave. -/
def Inv (s : GameState) : Prop :=
  (∀ w ∈ s.shockwaves, WaveOK w) ∧
  s.phase ≠ GamePhase.LEVEL_UP ∧
  (s.phase = GamePhase.GAME_OVER → s.player.hp ≤ 0) ∧
  (s.phase = GamePhase.SCANNING →
    ∃ tid, s.scanTargetId = some tid ∧ ∃ a ∈ s.asteroids, a.id = tid) ∧
  (TARGET_CRYSTALS ≤ s.player.crystals →
    ((s.phase = GamePhase.IDLE ∨ s.phase = GamePhase.SCANNING) → s.shockwaves ≠ []) ∧
    (s.phase = GamePhase.WARPING → s.shockwaves ≠ [] ∧
      ∀ w ∈ s.shockwaves, (1440 - w.radius) / 25 + 1 < 60 * s.warpTimer) ∧
    s.phase ≠ GamePhase.INTRO)

/-- The single enemy of `stateC5`. -/
def eC5 : Enemy :=
  { id := 1, position := ⟨1100, 360⟩, velocity := ⟨0, 0⟩, radius := 10,
    color := COLORS_enemySwarm, rotation := 0, type := EnemyType.SWARM,
    hp := 30, maxHp := 30, attackCooldown := 100 }

/-- World for the C8 witness: the claim's own example, a stored radius-50
speed-25 wave with enemies at distances 45 and 10 from its centre. -/
def stateC8w : GameState :=
  { createInitialState with
    phase := GamePhase.IDLE
    enemies := [mkRanged 1 ⟨245, 360⟩ 30, mkRanged 2 ⟨210, 360⟩ 30]
    shockwaves := [{ position := ⟨200, 360⟩, radius := 50, maxRadius := 1440, speed := 25,
                     color := COLORS_shockwave }] }

/-- The stored wave of `stateC8w`. -/
def waveC8 : Shockwave :=
  { position := ⟨200, 360⟩, radius := 50, maxRadius := 1440, speed := 25,
    color := COLORS_shockwave }

/-- Missile for the C1 witness: sitting 5 units from enemy 1 (hit radius
18 + 14 = 32), with enemy 2 at distance 45 < 80 from it. -/
def pC1 : Projectile :=
  { id := 99, position := ⟨700, 360⟩, velocity := ⟨0, 0⟩, rotation := 0, radius := 14,
    color := (WEAPON_STATS WeaponType.MISSILE).color, damage := 80, targetId := some 1,
    duration := 100, isEnemy := false, type := ProjectileType.MISSILE }

/-- World for the C1 witness. -/
def stateC1w : GameState :=
  { createInitialState with
    enemies := [mkRanged 1 ⟨705, 360⟩ 100, mkRanged 2 ⟨745, 360⟩ 100] }

/-- World for the C7 witness: 95/100 xp and a value-10 orb on the ship. -/
def stateC7 : GameState :=
  { createInitialState with
    phase := GamePhase.IDLE
    player := { createInitialState.player with xp := 95, weapons := quietWeapons }
    xpOrbs := [{ id := 3, position := ⟨600, 360⟩, velocity := ⟨0, 0⟩, radius := 4,
                 color := COLORS_xpOrb, rotation := 0, value := 10, isMagnetized := false }] }

set_option allowUnsafeReducibility true
attribute [local semireducible] Rat.add Rat.mul Rat.sub Rat.inv Rat.ofScientific

set_option maxRecDepth 100000

theorem distSq_nonneg (a b : Vec2) : 0 ≤ distSq a b := by
  unfold distSq; positivity

/-- Faithfulness of `distLtB`: over the reals, `√(distSq a b) < c` iff
`distLtB a b c`. -/
theorem sqrt_lt_iff_distLtB (a b : Vec2) (c : ℚ) :
    (Real.sqrt (distSq a b) < (c : ℝ)) ↔ distLtB a b c = true := by
  have h0 : (0 : ℝ) ≤ (distSq a b : ℝ) := by exact_mod_cast distSq_nonneg a b
  unfold distLtB
  constructor
  · intro h
    have hc : (0 : ℝ) < c := lt_of_le_of_lt (Real.sqrt_nonneg _) h
    have hsq : ((distSq a b : ℝ)) < (c : ℝ) ^ 2 := by
      have := Real.sq_sqrt h0
      calc ((distSq a b : ℝ)) = Real.sqrt (distSq a b) ^ 2 := by rw [Real.sq_sqrt h0]
        _ < (c : ℝ) ^ 2 := by
            apply pow_lt_pow_left h (Real.sqrt_nonneg _)
            norm_num
    simp only [Bool.and_eq_true, decide_eq_true_eq]
    constructor
    · exact_mod_cast hc
    · exact_mod_cast hsq
  · intro h
    simp only [Bool.and_eq_true, decide_eq_true_eq] at h
    obtain ⟨hc, hsq⟩ := h
    have hc' : (0 : ℝ) < (c : ℝ) := by exact_mod_cast hc
    have hsq' : ((distSq a b : ℝ)) < (c : ℝ) ^ 2 := by exact_mod_cast hsq
    have := Real.sqrt_lt_sqrt h0 hsq'
    calc Real.sqrt (distSq a b) < Real.sqrt ((c : ℝ) ^ 2) := this
      _ = (c : ℝ) := by rw [Real.sqrt_sq hc'.le]

/-- Faithfulness of `distLeB`: over the reals, `√(distSq a b) ≤ c` iff
`distLeB a b c`. -/
theorem sqrt_le_iff_distLeB (a b : Vec2) (c : ℚ) :
    (Real.sqrt (distSq a b) ≤ (c : ℝ)) ↔ distLeB a b c = true := by
  have h0 : (0 : ℝ) ≤ (distSq a b : ℝ) := by exact_mod_cast distSq_nonneg a b
  unfold distLeB
  constructor
  · intro h
    have hc : (0 : ℝ) ≤ c := le_trans (Real.sqrt_nonneg _) h
    have hsq : ((distSq a b : ℝ)) ≤ (c : ℝ) ^ 2 := by
      calc ((distSq a b : ℝ)) = Real.sqrt (distSq a b) ^ 2 := by rw [Real.sq_sqrt h0]
        _ ≤ (c : ℝ) ^ 2 := by
            apply pow_le_pow_left (Real.sqrt_nonneg _) h
    simp only [Bool.and_eq_true, decide_eq_true_eq]
    exact ⟨by exact_mod_cast hc, by exact_mod_cast hsq⟩
  · intro h
    simp only [Bool.and_eq_true, decide_eq_true_eq] at h
    obtain ⟨hc, hsq⟩ := h
    have hc' : (0 : ℝ) ≤ (c : ℝ) := by exact_mod_cast hc
    have hsq' : ((distSq a b : ℝ)) ≤ (c : ℝ) ^ 2 := by exact_mod_cast hsq
    calc Real.sqrt (distSq a b) ≤ Real.sqrt ((c : ℝ) ^ 2) := Real.sqrt_le_sqrt hsq'
      _ = (c : ℝ) := by rw [Real.sqrt_sq hc']

/-- Faithfulness of `distGtB`: over the reals, `√(distSq a b) > c` iff
`distGtB a b c`. -/
theorem sqrt_gt_iff_distGtB (a b : Vec2) (c : ℚ) :
    ((c : ℝ) < Real.sqrt (distSq a b)) ↔ distGtB a b c = true := by
  have h := sqrt_le_iff_distLeB a b c
  unfold distGtB
  unfold distLeB at h
  constructor
  · intro hlt
    by_contra hne
    simp only [Bool.or_eq_true, decide_eq_true_eq, not_or, not_lt] at hne
    obtain ⟨hc, hsq⟩ := hne
    have : Real.sqrt (distSq a b) ≤ (c : ℝ) := by
      rw [h]
      simp only [Bool.and_eq_true, decide_eq_true_eq]
      exact ⟨hc, hsq⟩
    exact absurd hlt (not_lt.mpr this)
  · intro hb
    simp only [Bool.or_eq_true, decide_eq_true_eq] at hb
    rcases hb with hc | hsq
    · calc (c : ℝ) < 0 := by exact_mod_cast hc
        _ ≤ Real.sqrt (distSq a b) := Real.sqrt_nonneg _
    · by_contra hne
      push_neg at hne
      have h0 : (0 : ℝ) ≤ (distSq a b : ℝ) := by exact_mod_cast distSq_nonneg a b
      have hc0 : (0 : ℝ) ≤ (c : ℝ) := le_trans (Real.sqrt_nonneg _) hne
      have : ((distSq a b : ℝ)) ≤ (c : ℝ) ^ 2 := by
        calc ((distSq a b : ℝ)) = Real.sqrt (distSq a b) ^ 2 := by rw [Real.sq_sqrt h0]
          _ ≤ (c : ℝ) ^ 2 := pow_le_pow_left (Real.sqrt_nonneg _) hne _
      have hq : (distSq a b) ≤ c ^ 2 := by exact_mod_cast this
      exact absurd hsq (not_lt.mpr hq)

theorem distSq_comm (a b : Vec2) : distSq a b = distSq b a := by
  unfold distSq; ring

theorem clamp01_one_sub (t : ℚ) : clamp01 (1 - t) = 1 - clamp01 t := by
  unfold clamp01
  rcases le_total t 0 with h0 | h0 <;> rcases le_total t 1 with h1 | h1 <;>
    simp [max_def, min_def] <;> split_ifs <;> linarith

/-- Geometric core of the occlusion symmetry: swapping the segment endpoints
replaces the clamped projection parameter `t` by `1 - t` and leaves the
squared point-to-segment distance unchanged. -/
theorem segDistSq_symm (s e c : Vec2) (h : distSq s e ≠ 0) :
    segDistSq s e c = segDistSq e s c := by
  have hc : distSq e s = distSq s e := distSq_comm e s
  have hnum : ((c.x - e.x) * (s.x - e.x) + (c.y - e.y) * (s.y - e.y)) / distSq s e
      = 1 - ((c.x - s.x) * (e.x - s.x) + (c.y - s.y) * (e.y - s.y)) / distSq s e := by
    field_simp
    unfold distSq
    ring
  simp only [segDistSq, hc, hnum, clamp01_one_sub]
  ring

theorem isLineBlockedOne_symm (a b : Vec2) (ast : Asteroid) :
    isLineBlockedOne a b ast = isLineBlockedOne b a ast := by
  unfold isLineBlockedOne
  by_cases h : distSq a b = 0
  · have h2 : distSq b a = 0 := by rw [distSq_comm]; exact h
    simp [h, h2]
  · have h2 : distSq b a ≠ 0 := by rw [distSq_comm]; exact h
    simp only [h, h2, if_false, segDistSq_symm a b ast.position h]

/-- Claim C9: the line-of-sight occlusion test is symmetric in its two
endpoints, for every pair of points and every list of circular obstacles. -/
theorem C9_isLineBlocked_symm (a b : Vec2) (asteroids : List Asteroid) :
    isLineBlocked a b asteroids = isLineBlocked b a asteroids := by
  unfold isLineBlocked
  induction asteroids with
  | nil => rfl
  | cons ast rest ih => simp [List.any_cons, ih, isLineBlockedOne_symm a b ast]

/-- Counterexample to claim C1.  In `stateC1` a player missile (damage 80)
directly hits enemy 1 (hp 100).  Were the claim true, enemy 1 would receive
only the direct 80 damage and survive at hp 20; instead the splash loop also
covers the directly-hit enemy (distance 5 < 80 from the impact point), so it
takes 80 + 40 = 120, dies, and drops an orb — only enemy 2 (hp 100 − 40 = 60)
remains. -/
theorem C1_counterexample :
    ((updateGame env0 stateC1).enemies.map (fun e => e.hp)) = [60] ∧
    (updateGame env0 stateC1).xpOrbs.length = 1 ∧
    ((100 : ℚ) - 80 = 20 ∧ ¬((20 : ℚ) ≤ 0)) := by
  refine ⟨by decide, by decide, by norm_num⟩

/-- Counterexample to claim C3.  In `stateC3` the player has hp 0.2 and two
enemies in contact; each applies a 0.5 contact decrement (the only damage
increments of the tick), and the tick ends at hp −0.8 with `GAME_OVER`.  The
lower bound 0 is thus violated by 0.8, more than the single last increment
0.5. -/
theorem C3_counterexample :
    (updateGame env0 stateC3).player.hp = -(4 / 5) ∧
    (updateGame env0 stateC3).phase = GamePhase.GAME_OVER ∧
    (-(4 / 5) : ℚ) < 0 - 1 / 2 := by
  refine ⟨by decide, by decide, by norm_num⟩

/-- Counterexample to claim C4.  A `LEVEL_UP` tick is a complete no-op: with
camera shake 10 the tick leaves the state — camera shake included — exactly
unchanged, so the shake does not decay toward zero as claimed. -/
theorem C4_counterexample :
    updateGame env0 stateC4 = stateC4 ∧ stateC4.cameraShake = 10 ∧
    ¬((updateGame env0 stateC4).cameraShake < stateC4.cameraShake) := by
  refine ⟨by decide, by decide, by decide⟩

/-- Counterexample to claim C5.  In `stateC5` the machine gun has level 1,
cooldown 0 and a valid visible target at distance 500 > range 400; the tick
leaves the cooldown at 0 instead of decrementing it to −1 (the
`else … cooldown--` belongs to the outer eligibility test, which is
satisfied, so the out-of-range case does nothing). -/
theorem C5_counterexample :
    (updateGame env0 stateC5).player.weapons.mg.cooldown = 0 ∧
    stateC5.player.weapons.mg.cooldown = 0 ∧
    ¬((updateGame env0 stateC5).player.weapons.mg.cooldown
        = stateC5.player.weapons.mg.cooldown - 1) := by
  refine ⟨by decide, by decide, by decide⟩

/-- Evaluation of the code at the failing input of claim C6.  In `stateC6`
the laser (level 1, damage 2, cooldown 0) has its nearest unoccluded target
at distance 100 < range 300 on two consecutive ticks.  The first tick
applies the 2 damage (hp 100 → 98) and resets the cooldown to its
maxCooldown 1; the second tick, with the target still in range, only
decrements the cooldown back to 0 and applies no damage (hp stays 98) —
contradicting per-tick continuous damage.  No projectile is created on
either tick. -/
theorem C6_laser_alternate_ticks :
    ((updateGame env0 stateC6).enemies.map (fun e => e.hp)) = [98] ∧
    ((updateGame env0 (updateGame env0 stateC6)).enemies.map (fun e => e.hp)) = [98] ∧
    (updateGame env0 stateC6).player.weapons.laser.cooldown = 1 ∧
    (updateGame env0 (updateGame env0 stateC6)).player.weapons.laser.cooldown = 0 ∧
    (updateGame env0 stateC6).projectiles = [] ∧
    (updateGame env0 (updateGame env0 stateC6)).projectiles = [] := by
  refine ⟨by decide, by decide, by decide, by decide, by decide, by decide⟩

/-- Counterexample to claim C8.  In `stateC8` the shockwave has stored
radius 50 and speed 25, and the enemy sits at distance 70 from its centre.
The claimed band `[radius − 2·speed, radius) = [0, 50)` does not contain 70,
so per the claim the enemy is unaffected; the code expands the radius to 75
first and kills everything in `(25, 75)`, so the enemy's hp is forced to 0,
it receives the EMP floating text, and the cleanup removes it. -/
theorem C8_counterexample :
    (updateGame env0 stateC8).enemies.length = 0 ∧
    ((updateGame env0 stateC8).floatingTexts.map (fun t => t.text)) = [TEXT_emp] ∧
    distSq (⟨600, 170⟩ : Vec2) (⟨600, 100⟩ : Vec2) = 70 ^ 2 ∧
    ¬((0 : ℚ) ≤ 70 ∧ (70 : ℚ) < 50) := by
  refine ⟨by decide, by decide, by decide, by norm_num⟩

theorem PlayerWeapons.get_set_same (w : PlayerWeapons) (t : WeaponType) (v : Weapon) :
    (w.set t v).get t = v := by
  cases t <;> rfl

/-! Field-preservation facts for the spawning helpers: each helper touches
exactly one collection of the world state. -/

@[simp] theorem spawnEnemy_phase (env : Env) (ft : Option EnemyType) (pos : Option Vec2) (s : GameState) (k : ℕ) :
    (spawnEnemy env ft pos s k).1.phase = s.phase := rfl

@[simp] theorem spawnEnemy_player (env : Env) (ft : Option EnemyType) (pos : Option Vec2) (s : GameState) (k : ℕ) :
    (spawnEnemy env ft pos s k).1.player = s.player := rfl

@[simp] theorem spawnEnemy_projectiles (env : Env) (ft : Option EnemyType) (pos : Option Vec2) (s : GameState) (k : ℕ) :
    (spawnEnemy env ft pos s k).1.projectiles = s.projectiles := rfl

@[simp] theorem spawnEnemy_particles (env : Env) (ft : Option EnemyType) (pos : Option Vec2) (s : GameState) (k : ℕ) :
    (spawnEnemy env ft pos s k).1.particles = s.particles := rfl

@[simp] theorem spawnEnemy_asteroids (env : Env) (ft : Option EnemyType) (pos : Option Vec2) (s : GameState) (k : ℕ) :
    (spawnEnemy env ft pos s k).1.asteroids = s.asteroids := rfl

@[simp] theorem spawnEnemy_floatingTexts (env : Env) (ft : Option EnemyType) (pos : Option Vec2) (s : GameState) (k : ℕ) :
    (spawnEnemy env ft pos s k).1.floatingTexts = s.floatingTexts := rfl

@[simp] theorem spawnEnemy_xpOrbs (env : Env) (ft : Option EnemyType) (pos : Option Vec2) (s : GameState) (k : ℕ) :
    (spawnEnemy env ft pos s k).1.xpOrbs = s.xpOrbs := rfl

@[simp] theorem spawnEnemy_shockwaves (env : Env) (ft : Option EnemyType) (pos : Option Vec2) (s : GameState) (k : ℕ) :
    (spawnEnemy env ft pos s k).1.shockwaves = s.shockwaves := rfl

@[simp] theorem spawnEnemy_cameraShake (env : Env) (ft : Option EnemyType) (pos : Option Vec2) (s : GameState) (k : ℕ) :
    (spawnEnemy env ft pos s k).1.cameraShake = s.cameraShake := rfl

@[simp] theorem spawnEnemy_scanTimer (env : Env) (ft : Option EnemyType) (pos : Option Vec2) (s : GameState) (k : ℕ) :
    (spawnEnemy env ft pos s k).1.scanTimer = s.scanTimer := rfl

@[simp] theorem spawnEnemy_warpTimer (env : Env) (ft : Option EnemyType) (pos : Option Vec2) (s : GameState) (k : ℕ) :
    (spawnEnemy env ft pos s k).1.warpTimer = s.warpTimer := rfl

@[simp] theorem spawnEnemy_scanTargetId (env : Env) (ft : Option EnemyType) (pos : Option Vec2) (s : GameState) (k : ℕ) :
    (spawnEnemy env ft pos s k).1.scanTargetId = s.scanTargetId := rfl

@[simp] theorem spawnEnemy_waveTimer (env : Env) (ft : Option EnemyType) (pos : Option Vec2) (s : GameState) (k : ℕ) :
    (spawnEnemy env ft pos s k).1.waveTimer = s.waveTimer := rfl

@[simp] theorem spawnEnemy_magnetTimer (env : Env) (ft : Option EnemyType) (pos : Option Vec2) (s : GameState) (k : ℕ) :
    (spawnEnemy env ft pos s k).1.magnetTimer = s.magnetTimer := rfl

@[simp] theorem spawnEnemy_justLeveledUp (env : Env) (ft : Option EnemyType) (pos : Option Vec2) (s : GameState) (k : ℕ) :
    (spawnEnemy env ft pos s k).1.justLeveledUp = s.justLeveledUp := rfl

@[simp] theorem spawnEnemy_levelUpQueued (env : Env) (ft : Option EnemyType) (pos : Option Vec2) (s : GameState) (k : ℕ) :
    (spawnEnemy env ft pos s k).1.levelUpQueued = s.levelUpQueued := rfl

@[simp] theorem spawnEnemy_justScanned (env : Env) (ft : Option EnemyType) (pos : Option Vec2) (s : GameState) (k : ℕ) :
    (spawnEnemy env ft pos s k).1.justScanned = s.justScanned := rfl

@[simp] theorem spawnParticles_phase (env : Env) (pos : Vec2) (n : ℕ) (c : String) (s : GameState) (k : ℕ) :
    (spawnParticles env pos n c s k).1.phase = s.phase := rfl

@[simp] theorem spawnParticles_player (env : Env) (pos : Vec2) (n : ℕ) (c : String) (s : GameState) (k : ℕ) :
    (spawnParticles env pos n c s k).1.player = s.player := rfl

@[simp] theorem spawnParticles_enemies (env : Env) (pos : Vec2) (n : ℕ) (c : String) (s : GameState) (k : ℕ) :
    (spawnParticles env pos n c s k).1.enemies = s.enemies := rfl

@[simp] theorem spawnParticles_projectiles (env : Env) (pos : Vec2) (n : ℕ) (c : String) (s : GameState) (k : ℕ) :
    (spawnParticles env pos n c s k).1.projectiles = s.projectiles := rfl

@[simp] theorem spawnParticles_asteroids (env : Env) (pos : Vec2) (n : ℕ) (c : String) (s : GameState) (k : ℕ) :
    (spawnParticles env pos n c s k).1.asteroids = s.asteroids := rfl

@[simp] theorem spawnParticles_floatingTexts (env : Env) (pos : Vec2) (n : ℕ) (c : String) (s : GameState) (k : ℕ) :
    (spawnParticles env pos n c s k).1.floatingTexts = s.floatingTexts := rfl

@[simp] theorem spawnParticles_xpOrbs (env : Env) (pos : Vec2) (n : ℕ) (c : String) (s : GameState) (k : ℕ) :
    (spawnParticles env pos n c s k).1.xpOrbs = s.xpOrbs := rfl

@[simp] theorem spawnParticles_shockwaves (env : Env) (pos : Vec2) (n : ℕ) (c : String) (s : GameState) (k : ℕ) :
    (spawnParticles env pos n c s k).1.shockwaves = s.shockwaves := rfl

@[simp] theorem spawnParticles_cameraShake (env : Env) (pos : Vec2) (n : ℕ) (c : String) (s : GameState) (k : ℕ) :
    (spawnParticles env pos n c s k).1.cameraShake = s.cameraShake := rfl

@[simp] theorem spawnParticles_scanTimer (env : Env) (pos : Vec2) (n : ℕ) (c : String) (s : GameState) (k : ℕ) :
    (spawnParticles env pos n c s k).1.scanTimer = s.scanTimer := rfl

@[simp] theorem spawnParticles_warpTimer (env : Env) (pos : Vec2) (n : ℕ) (c : String) (s : GameState) (k : ℕ) :
    (spawnParticles env pos n c s k).1.warpTimer = s.warpTimer := rfl

@[simp] theorem spawnParticles_scanTargetId (env : Env) (pos : Vec2) (n : ℕ) (c : String) (s : GameState) (k : ℕ) :
    (spawnParticles env pos n c s k).1.scanTargetId = s.scanTargetId := rfl

@[simp] theorem spawnParticles_waveTimer (env : Env) (pos : Vec2) (n : ℕ) (c : String) (s : GameState) (k : ℕ) :
    (spawnParticles env pos n c s k).1.waveTimer = s.waveTimer := rfl

@[simp] theorem spawnParticles_magnetTimer (env : Env) (pos : Vec2) (n : ℕ) (c : String) (s : GameState) (k : ℕ) :
    (spawnParticles env pos n c s k).1.magnetTimer = s.magnetTimer := rfl

@[simp] theorem spawnParticles_justLeveledUp (env : Env) (pos : Vec2) (n : ℕ) (c : String) (s : GameState) (k : ℕ) :
    (spawnParticles env pos n c s k).1.justLeveledUp = s.justLeveledUp := rfl

@[simp] theorem spawnParticles_levelUpQueued (env : Env) (pos : Vec2) (n : ℕ) (c : String) (s : GameState) (k : ℕ) :
    (spawnParticles env pos n c s k).1.levelUpQueued = s.levelUpQueued := rfl

@[simp] theorem spawnParticles_justScanned (env : Env) (pos : Vec2) (n : ℕ) (c : String) (s : GameState) (k : ℕ) :
    (spawnParticles env pos n c s k).1.justScanned = s.justScanned := rfl

@[simp] theorem addFloatingText_phase (env : Env) (txt : String) (pos : Vec2) (c : String) (sz : ℚ) (s : GameState) (k : ℕ) :
    (addFloatingText env txt pos c sz s k).1.phase = s.phase := rfl

@[simp] theorem addFloatingText_player (env : Env) (txt : String) (pos : Vec2) (c : String) (sz : ℚ) (s : GameState) (k : ℕ) :
    (addFloatingText env txt pos c sz s k).1.player = s.player := rfl

@[simp] theorem addFloatingText_enemies (env : Env) (txt : String) (pos : Vec2) (c : String) (sz : ℚ) (s : GameState) (k : ℕ) :
    (addFloatingText env txt pos c sz s k).1.enemies = s.enemies := rfl

@[simp] theorem addFloatingText_projectiles (env : Env) (txt : String) (pos : Vec2) (c : String) (sz : ℚ) (s : GameState) (k : ℕ) :
    (addFloatingText env txt pos c sz s k).1.projectiles = s.projectiles := rfl

@[simp] theorem addFloatingText_particles (env : Env) (txt : String) (pos : Vec2) (c : String) (sz : ℚ) (s : GameState) (k : ℕ) :
    (addFloatingText env txt pos c sz s k).1.particles = s.particles := rfl

@[simp] theorem addFloatingText_asteroids (env : Env) (txt : String) (pos : Vec2) (c : String) (sz : ℚ) (s : GameState) (k : ℕ) :
    (addFloatingText env txt pos c sz s k).1.asteroids = s.asteroids := rfl

@[simp] theorem addFloatingText_xpOrbs (env : Env) (txt : String) (pos : Vec2) (c : String) (sz : ℚ) (s : GameState) (k : ℕ) :
    (addFloatingText env txt pos c sz s k).1.xpOrbs = s.xpOrbs := rfl

@[simp] theorem addFloatingText_shockwaves (env : Env) (txt : String) (pos : Vec2) (c : String) (sz : ℚ) (s : GameState) (k : ℕ) :
    (addFloatingText env txt pos c sz s k).1.shockwaves = s.shockwaves := rfl

@[simp] theorem addFloatingText_cameraShake (env : Env) (txt : String) (pos : Vec2) (c : String) (sz : ℚ) (s : GameState) (k : ℕ) :
    (addFloatingText env txt pos c sz s k).1.cameraShake = s.cameraShake := rfl

@[simp] theorem addFloatingText_scanTimer (env : Env) (txt : String) (pos : Vec2) (c : String) (sz : ℚ) (s : GameState) (k : ℕ) :
    (addFloatingText env txt pos c sz s k).1.scanTimer = s.scanTimer := rfl

@[simp] theorem addFloatingText_warpTimer (env : Env) (txt : String) (pos : Vec2) (c : String) (sz : ℚ) (s : GameState) (k : ℕ) :
    (addFloatingText env txt pos c sz s k).1.warpTimer = s.warpTimer := rfl

@[simp] theorem addFloatingText_scanTargetId (env : Env) (txt : String) (pos : Vec2) (c : String) (sz : ℚ) (s : GameState) (k : ℕ) :
    (addFloatingText env txt pos c sz s k).1.scanTargetId = s.scanTargetId := rfl

@[simp] theorem addFloatingText_waveTimer (env : Env) (txt : String) (pos : Vec2) (c : String) (sz : ℚ) (s : GameState) (k : ℕ) :
    (addFloatingText env txt pos c sz s k).1.waveTimer = s.waveTimer := rfl

@[simp] theorem addFloatingText_magnetTimer (env : Env) (txt : String) (pos : Vec2) (c : String) (sz : ℚ) (s : GameState) (k : ℕ) :
    (addFloatingText env txt pos c sz s k).1.magnetTimer = s.magnetTimer := rfl

@[simp] theorem addFloatingText_justLeveledUp (env : Env) (txt : String) (pos : Vec2) (c : String) (sz : ℚ) (s : GameState) (k : ℕ) :
    (addFloatingText env txt pos c sz s k).1.justLeveledUp = s.justLeveledUp := rfl

@[simp] theorem addFloatingText_levelUpQueued (env : Env) (txt : String) (pos : Vec2) (c : String) (sz : ℚ) (s : GameState) (k : ℕ) :
    (addFloatingText env txt pos c sz s k).1.levelUpQueued = s.levelUpQueued := rfl

@[simp] theorem addFloatingText_justScanned (env : Env) (txt : String) (pos : Vec2) (c : String) (sz : ℚ) (s : GameState) (k : ℕ) :
    (addFloatingText env txt pos c sz s k).1.justScanned = s.justScanned := rfl


theorem Frame.refl (a : GameState) : Frame a a :=
  ⟨Eq.refl _, Eq.refl _, Eq.refl _, Eq.refl _, Eq.refl _, Eq.refl _⟩

theorem Frame.trans {a b c : GameState} (h1 : Frame a b) (h2 : Frame b c) : Frame a c := by
  obtain ⟨p1, c1, s1, w1, t1, a1⟩ := h1
  obtain ⟨p2, c2, s2, w2, t2, a2⟩ := h2
  exact ⟨p1.trans p2, c1.trans c2, s1.trans s2, w1.trans w2, t1.trans t2, a1.trans a2⟩

theorem fireOne_frame (env : Env) (t : WeaponType) (nv na : Option ℕ)
    (s : GameState) (k : ℕ) : Frame (fireOne env t nv na s k).1 s := by
  unfold fireOne
  rcases hidx : (if t = WeaponType.MISSILE then na else nv) with _ | i
  · exact ⟨rfl, rfl, rfl, rfl, rfl, rfl⟩
  · simp only []
    rcases htgt : s.enemies.get? i with _ | target
    · simp [htgt, Frame]
    · simp only [htgt]
      split
      · split
        · cases t <;> (repeat' split) <;> simp [Frame]
        · exact ⟨rfl, rfl, rfl, rfl, rfl, rfl⟩
      · exact ⟨rfl, rfl, rfl, rfl, rfl, rfl⟩

theorem stepWeapons_frame (env : Env) (s : GameState) (k : ℕ) :
    Frame (stepWeapons env s k).1 s := by
  unfold stepWeapons
  refine Frame.trans (fireOne_frame _ _ _ _ _ _)
    (Frame.trans (fireOne_frame _ _ _ _ _ _)
      (Frame.trans (fireOne_frame _ _ _ _ _ _) ?_))
  repeat' split
  all_goals exact ⟨rfl, rfl, rfl, rfl, rfl, rfl⟩

theorem enemyBossStep_frame (env : Env) (e : Enemy) (s : GameState) (k : ℕ) :
    Frame (enemyBossStep env e s k).2.1 s := by
  unfold enemyBossStep Frame
  refine ⟨?_, ?_, ?_, ?_, ?_, ?_⟩ <;> split_ifs <;> simp <;> split_ifs <;> simp

theorem enemyMoveStep_frame (env : Env) (e : Enemy) (s : GameState) (k : ℕ) :
    Frame (enemyMoveStep env e s k).2.1 s := by
  unfold enemyMoveStep Frame
  refine ⟨?_, ?_, ?_, ?_, ?_, ?_⟩ <;> simp only [] <;> split_ifs <;> simp

theorem enemyContactStep_frame (e : Enemy) (s : GameState) :
    Frame (enemyContactStep e s) s := by
  unfold enemyContactStep
  split
  · exact ⟨rfl, rfl, rfl, rfl, rfl, rfl⟩
  · exact Frame.refl s

theorem stepEnemyOne_frame (env : Env) (e : Enemy) (s : GameState) (k : ℕ) :
    Frame (stepEnemyOne env e s k).2.1 s := by
  unfold stepEnemyOne
  exact Frame.trans (enemyContactStep_frame _ _)
    (Frame.trans (enemyMoveStep_frame _ _ _ _) (enemyBossStep_frame _ _ _ _))

theorem stepEnemiesGo_frame (env : Env) (l : List Enemy) (s : GameState) (k : ℕ) :
    Frame (stepEnemiesGo env l s k).2.1 s := by
  induction l generalizing s k with
  | nil => exact Frame.refl s
  | cons e es ih =>
    exact Frame.trans (ih _ _) (stepEnemyOne_frame env e s k)

theorem stepEnemies_frame (env : Env) (s : GameState) (k : ℕ) :
    Frame (stepEnemies env s k).1 s := by
  unfold stepEnemies
  obtain ⟨h1, h2, h3, h4, h5, h6⟩ := stepEnemiesGo_frame env s.enemies { s with enemies := [] } k
  exact ⟨h1, h2, h3, h4, h5, h6⟩

theorem projectileHit_frame (env : Env) (p : Projectile) (s : GameState) (k : ℕ) :
    Frame (projectileHit env p s k).2.1 s := by
  unfold projectileHit Frame
  refine ⟨?_, ?_, ?_, ?_, ?_, ?_⟩ <;> (simp only []; repeat' split) <;> simp

theorem stepProjectilesGo_frame (env : Env) (l : List Projectile) (s : GameState) (k : ℕ) :
    Frame (stepProjectilesGo env l s k).2.1 s := by
  induction l generalizing s k with
  | nil => exact Frame.refl s
  | cons p ps ih =>
    unfold stepProjectilesGo
    simp only []
    have h2 := projectileHit_frame env
      (integrateProjectile env p (stepProjectilesGo env ps s k).2.1.enemies)
      (stepProjectilesGo env ps s k).2.1 (stepProjectilesGo env ps s k).2.2
    have hcomp := Frame.trans h2 (ih s k)
    split
    · exact hcomp
    · exact hcomp

theorem stepProjectiles_frame (env : Env) (s : GameState) (k : ℕ) :
    Frame (stepProjectiles env s k).1 s := by
  unfold stepProjectiles
  obtain ⟨h1, h2, h3, h4, h5, h6⟩ :=
    stepProjectilesGo_frame env s.projectiles { s with projectiles := [] } k
  exact ⟨h1, h2, h3, h4, h5, h6⟩

theorem shockwaveSweep_frame (env : Env) (w : Shockwave) (l : List Enemy)
    (s : GameState) (k : ℕ) : Frame (shockwaveSweep env w l s k).2.1 s := by
  induction l generalizing s k with
  | nil => exact Frame.refl s
  | cons e es ih =>
    unfold shockwaveSweep
    split
    · exact Frame.trans (ih _ _) ⟨rfl, rfl, rfl, rfl, rfl, rfl⟩
    · exact ih s k

/-- The sweep also leaves the player and the phase-relevant scalar state
untouched; in particular it never writes the phase. -/
theorem shockwaveSweep_player (env : Env) (w : Shockwave) (l : List Enemy)
    (s : GameState) (k : ℕ) : (shockwaveSweep env w l s k).2.1.player = s.player := by
  induction l generalizing s k with
  | nil => rfl
  | cons e es ih =>
    unfold shockwaveSweep
    split
    · rw [ih]; rfl
    · exact ih s k

theorem stepCleanupGo_frame (env : Env) (active : Bool) (l : List Enemy)
    (s : GameState) (k : ℕ) : Frame (stepCleanupGo env active l s k).2.1 s := by
  induction l generalizing s k with
  | nil => exact Frame.refl s
  | cons e es ih =>
    unfold stepCleanupGo
    simp only []
    refine Frame.trans ?_ (ih s k)
    generalize (stepCleanupGo env active es s k).2.1 = t
    generalize (stepCleanupGo env active es s k).2.2 = m
    unfold Frame
    refine ⟨?_, ?_, ?_, ?_, ?_, ?_⟩ <;> (repeat' split) <;> simp

theorem stepCleanup_frame (env : Env) (active : Bool) (s : GameState) (k : ℕ) :
    Frame (stepCleanup env active s k).1 s := by
  unfold stepCleanup
  obtain ⟨h1, h2, h3, h4, h5, h6⟩ :=
    stepCleanupGo_frame env active s.enemies { s with enemies := [] } k
  exact ⟨h1, h2, h3, h4, h5, h6⟩

theorem resolveLevelUps_crystals (fuel : ℕ) (p : Player) (q : Bool) :
    (resolveLevelUps fuel p q).1.crystals = p.crystals := by
  induction fuel generalizing p q with
  | zero => rfl
  | succ n ih =>
    unfold resolveLevelUps
    split
    · rw [ih]
    · rfl

theorem collectOrb_crystals (o : XpOrb) (p : Player) (q : Bool) :
    (collectOrb o p q).1.crystals = p.crystals := by
  unfold collectOrb
  rw [resolveLevelUps_crystals]

theorem stepOrbsGo_frame (env : Env) (l : List XpOrb) (s : GameState) (k : ℕ) :
    Frame (stepOrbsGo env l s k).2.1 s := by
  induction l generalizing s k with
  | nil => exact Frame.refl s
  | cons o os ih =>
    unfold stepOrbsGo
    simp only []
    refine Frame.trans ?_ (ih s k)
    generalize (stepOrbsGo env os s k).2.1 = t
    generalize (stepOrbsGo env os s k).2.2 = m
    unfold Frame
    refine ⟨?_, ?_, ?_, ?_, ?_, ?_⟩ <;> (repeat' split) <;> simp [collectOrb_crystals]

theorem stepOrbs_frame (env : Env) (active : Bool) (s : GameState) (k : ℕ) :
    Frame (stepOrbs env active s k).1 s := by
  unfold stepOrbs
  simp only []
  have hbase : ∀ (u : GameState) (m : ℕ), Frame (stepOrbsGo env u.xpOrbs { u with xpOrbs := [] } m).2.1 u := by
    intro u m
    obtain ⟨h1, h2, h3, h4, h5, h6⟩ := stepOrbsGo_frame env u.xpOrbs { u with xpOrbs := [] } m
    exact ⟨h1, h2, h3, h4, h5, h6⟩
  refine Frame.trans ?_ (Frame.refl s)
  repeat' split
  all_goals refine Frame.trans (hbase _ _) ?_
  all_goals unfold Frame
  all_goals refine ⟨?_, ?_, ?_, ?_, ?_, ?_⟩ <;> simp

theorem stepCosmetic_frame (s : GameState) : Frame (stepCosmetic s) s :=
  ⟨rfl, rfl, rfl, rfl, rfl, rfl⟩

theorem stepQueue_frame (s : GameState) : Frame (stepQueue s) s := by
  unfold stepQueue
  repeat' split
  all_goals exact ⟨rfl, rfl, rfl, rfl, rfl, rfl⟩

theorem shakeDecay_frame (s : GameState) : Frame (shakeDecay s) s := by
  unfold shakeDecay Frame
  refine ⟨?_, ?_, ?_, ?_, ?_, ?_⟩ <;> (simp only []; split_ifs <;> simp)

/-- The player component is untouched from the cosmetic step on. -/
theorem stepCosmetic_player (s : GameState) : (stepCosmetic s).player = s.player := rfl

theorem stepQueue_player (s : GameState) : (stepQueue s).player = s.player := by
  unfold stepQueue
  repeat' split
  all_goals rfl

theorem stepGameOver_player (s : GameState) : (stepGameOver s).player = s.player := by
  unfold stepGameOver
  split
  all_goals rfl

theorem shakeDecay_player (s : GameState) : (shakeDecay s).player = s.player := by
  unfold shakeDecay
  simp only []
  split_ifs <;> simp

/-- Characterisation of the game-over check. -/
theorem stepGameOver_spec (s : GameState) :
    (s.player.hp ≤ 0 ∧ stepGameOver s = { s with phase := GamePhase.GAME_OVER }) ∨
    (¬(s.player.hp ≤ 0) ∧ stepGameOver s = s) := by
  unfold stepGameOver
  by_cases h : s.player.hp ≤ 0
  · left; exact ⟨h, by rw [if_pos h]⟩
  · right; exact ⟨h, by rw [if_neg h]⟩

/-- The shockwave stage leaves crystals, warp timer, scan target and
asteroids unchanged. -/
theorem stepShockwavesGo_frame4 (env : Env) (c : ℕ) (ws : List Shockwave)
    (s : GameState) (k : ℕ) :
    (stepShockwavesGo env c ws s k).2.1.player.crystals = s.player.crystals ∧
    (stepShockwavesGo env c ws s k).2.1.warpTimer = s.warpTimer ∧
    (stepShockwavesGo env c ws s k).2.1.scanTargetId = s.scanTargetId ∧
    (stepShockwavesGo env c ws s k).2.1.asteroids = s.asteroids := by
  induction ws generalizing s k with
  | nil => exact ⟨rfl, rfl, rfl, rfl⟩
  | cons w rest ih =>
    unfold stepShockwavesGo
    simp only []
    obtain ⟨i1, i2, i3, i4⟩ := ih s k
    obtain ⟨f1, f2, f3, f4, f5, f6⟩ := shockwaveSweep_frame env
      { w with radius := w.radius + w.speed }
      (stepShockwavesGo env c rest s k).2.1.enemies
      (stepShockwavesGo env c rest s k).2.1 (stepShockwavesGo env c rest s k).2.2
    repeat' split
    all_goals refine ⟨?_, ?_, ?_, ?_⟩ <;> simp [f2, f4, f5, f6, i1, i2, i3, i4]

@[simp] theorem spawnAsteroids_phase (env : Env) (s : GameState) (k : ℕ) :
    (spawnAsteroids env s k).1.phase = s.phase := rfl

@[simp] theorem spawnAsteroids_player (env : Env) (s : GameState) (k : ℕ) :
    (spawnAsteroids env s k).1.player = s.player := rfl

@[simp] theorem spawnAsteroids_shockwaves (env : Env) (s : GameState) (k : ℕ) :
    (spawnAsteroids env s k).1.shockwaves = s.shockwaves := rfl

@[simp] theorem spawnAsteroids_warpTimer (env : Env) (s : GameState) (k : ℕ) :
    (spawnAsteroids env s k).1.warpTimer = s.warpTimer := rfl

@[simp] theorem spawnAsteroids_scanTargetId (env : Env) (s : GameState) (k : ℕ) :
    (spawnAsteroids env s k).1.scanTargetId = s.scanTargetId := rfl

/-- The shockwave stage can change the phase only to `VICTORY`, and only when
the captured crystal count has reached the target. -/
theorem stepShockwavesGo_phase (env : Env) (c : ℕ) (ws : List Shockwave)
    (s : GameState) (k : ℕ) :
    (stepShockwavesGo env c ws s k).2.1.phase = s.phase ∨
    ((stepShockwavesGo env c ws s k).2.1.phase = GamePhase.VICTORY ∧ TARGET_CRYSTALS ≤ c) := by
  induction ws generalizing s k with
  | nil => exact Or.inl rfl
  | cons w rest ih =>
    have hsw := (shockwaveSweep_frame env { w with radius := w.radius + w.speed }
      (stepShockwavesGo env c rest s k).2.1.enemies
      (stepShockwavesGo env c rest s k).2.1 (stepShockwavesGo env c rest s k).2.2).1
    unfold stepShockwavesGo
    simp only []
    split
    · split
      · next h2 => exact Or.inr ⟨rfl, h2⟩
      · rcases ih s k with h | ⟨h, hc⟩
        · exact Or.inl (hsw.trans h)
        · exact Or.inr ⟨hsw.trans h, hc⟩
    · rcases ih s k with h | ⟨h, hc⟩
      · exact Or.inl (hsw.trans h)
      · exact Or.inr ⟨hsw.trans h, hc⟩

/-- Every shockwave surviving the shockwave stage is an input wave expanded
once by its speed, and the expansion stayed within its max radius. -/
theorem stepShockwavesGo_kept (env : Env) (c : ℕ) (ws : List Shockwave)
    (s : GameState) (k : ℕ) :
    ∀ x ∈ (stepShockwavesGo env c ws s k).1, ∃ w0 ∈ ws,
      x = { w0 with radius := w0.radius + w0.speed } ∧
      w0.radius + w0.speed ≤ w0.maxRadius := by
  induction ws generalizing s k with
  | nil => intro x hx; exact absurd hx (by simp [stepShockwavesGo])
  | cons w rest ih =>
    intro x hx
    unfold stepShockwavesGo at hx
    simp only [] at hx
    rw [apply_ite (fun p : List Shockwave × GameState × ℕ => p.1)] at hx
    split at hx
    · obtain ⟨w0, hm, he⟩ := ih s k x hx
      exact ⟨w0, List.mem_cons_of_mem _ hm, he⟩
    · next h1 =>
      rcases List.mem_cons.mp hx with h | h
      · refine ⟨w, List.mem_cons_self _ _, h, ?_⟩
        simpa using not_lt.mp h1
      · obtain ⟨w0, hm, he⟩ := ih s k x h
        exact ⟨w0, List.mem_cons_of_mem _ hm, he⟩

set_option trace.split.failure true in
/-- With the crystal target reached, the shockwave stage either removes no
wave (output is the input with every wave expanded, phase untouched) or ends
in `VICTORY`. -/
theorem stepShockwavesGo_cases (env : Env) (c : ℕ) (ws : List Shockwave)
    (s : GameState) (k : ℕ) (hc : TARGET_CRYSTALS ≤ c) :
    ((stepShockwavesGo env c ws s k).1 =
        ws.map (fun w => { w with radius := w.radius + w.speed }) ∧
      (stepShockwavesGo env c ws s k).2.1.phase = s.phase) ∨
    (stepShockwavesGo env c ws s k).2.1.phase = GamePhase.VICTORY := by
  induction ws generalizing s k with
  | nil => exact Or.inl ⟨rfl, rfl⟩
  | cons w rest ih =>
    have hsw := (shockwaveSweep_frame env { w with radius := w.radius + w.speed }
      (stepShockwavesGo env c rest s k).2.1.enemies
      (stepShockwavesGo env c rest s k).2.1 (stepShockwavesGo env c rest s k).2.2).1
    unfold stepShockwavesGo
    simp only []
    split
    · exact Or.inr rfl
    · rcases ih s k with ⟨hmap, hphase⟩ | hvic
      · refine Or.inl ⟨?_, hsw.trans hphase⟩
        rw [hmap, List.map_cons]
      · exact Or.inr (hsw.trans hvic)

@[simp] theorem triggerShockwave_phase (o : Vec2) (s : GameState) :
    (triggerShockwave o s).phase = s.phase := rfl

@[simp] theorem triggerShockwave_player (o : Vec2) (s : GameState) :
    (triggerShockwave o s).player = s.player := rfl

@[simp] theorem triggerShockwave_warpTimer (o : Vec2) (s : GameState) :
    (triggerShockwave o s).warpTimer = s.warpTimer := rfl

@[simp] theorem triggerShockwave_projectiles (o : Vec2) (s : GameState) :
    (triggerShockwave o s).projectiles = s.projectiles := rfl

@[simp] theorem triggerShockwave_shockwaves (o : Vec2) (s : GameState) :
    (triggerShockwave o s).shockwaves = s.shockwaves ++
      [{ position := o, radius := 10, maxRadius := max SCREEN_WIDTH SCREEN_HEIGHT * 1.2,
         speed := 25, color := COLORS_shockwave }] := rfl

/-- The mid-scan spawn block touches only the enemy list, the fresh-id
counter and the wave timer. -/
theorem scanSpawn_fields (env : Env) (s : GameState) (k : ℕ) :
    (scanSpawn env s k).1.phase = s.phase ∧
    (scanSpawn env s k).1.player = s.player ∧
    (scanSpawn env s k).1.shockwaves = s.shockwaves ∧
    (scanSpawn env s k).1.warpTimer = s.warpTimer ∧
    (scanSpawn env s k).1.scanTargetId = s.scanTargetId ∧
    (scanSpawn env s k).1.asteroids = s.asteroids ∧
    (scanSpawn env s k).1.scanTimer = s.scanTimer := by
  unfold scanSpawn
  simp only []
  split_ifs <;> refine ⟨?_, ?_, ?_, ?_, ?_, ?_, ?_⟩ <;> simp

/-- Scan completion with a recorded target still present among the
asteroids: phase returns to `IDLE`, one crystal is awarded, exactly one
fresh EMP shockwave is appended, and the warp timer is untouched. -/
theorem scanFinish_spec (env : Env) (s : GameState) (k : ℕ) (tid : ℕ) (a : Asteroid)
    (h3 : s.scanTargetId = some tid) (h4 : a ∈ s.asteroids) (h5 : a.id = tid) :
    (scanFinish env s k).1.phase = GamePhase.IDLE ∧
    (scanFinish env s k).1.player.crystals = s.player.crystals + 1 ∧
    (∃ p, (scanFinish env s k).1.shockwaves = s.shockwaves ++
      [{ position := p, radius := 10, maxRadius := max SCREEN_WIDTH SCREEN_HEIGHT * 1.2,
         speed := 25, color := COLORS_shockwave }]) ∧
    (scanFinish env s k).1.warpTimer = s.warpTimer := by
  unfold scanFinish
  simp only [h3]
  rcases hf : s.asteroids.find? (fun x => decide (x.id = tid)) with _ | target
  · have := List.find?_eq_none.mp hf a h4
    simp [h5] at this
  · rw [hf]
    refine ⟨by simp, by simp, ⟨target.position, by simp⟩, by simp⟩

/-- Outside `WARPING` and `SCANNING`, the timer stage is the identity. -/
theorem stepTimers_other (env : Env) (s : GameState) (k : ℕ)
    (h1 : s.phase ≠ GamePhase.WARPING) (h2 : s.phase ≠ GamePhase.SCANNING) :
    stepTimers env s k = (s, k) := by
  unfold stepTimers
  rw [if_neg h1, if_neg h2]

/-- Warp completion: phase returns to `IDLE`, the player record is kept and
the shockwave list is cleared. -/
theorem stepTimers_warp_done (env : Env) (s : GameState) (k : ℕ)
    (h1 : s.phase = GamePhase.WARPING) (h2 : s.warpTimer - 1 / 60 ≤ 0) :
    (stepTimers env s k).1.phase = GamePhase.IDLE ∧
    (stepTimers env s k).1.player = s.player ∧
    (stepTimers env s k).1.shockwaves = [] ∧
    (stepTimers env s k).1.enemies = [] ∧
    (stepTimers env s k).1.xpOrbs = [] ∧
    (stepTimers env s k).1.projectiles = [] ∧
    (stepTimers env s k).1.levelUpQueued = false := by
  unfold stepTimers
  rw [if_pos h1]
  simp only []
  split
  · exact ⟨rfl, rfl, rfl, rfl, rfl, rfl, rfl⟩
  · next h => exact absurd h2 h

/-- A warp tick that does not complete only decrements the warp timer. -/
theorem stepTimers_warp_tick (env : Env) (s : GameState) (k : ℕ)
    (h1 : s.phase = GamePhase.WARPING) (h2 : ¬(s.warpTimer - 1 / 60 ≤ 0)) :
    stepTimers env s k = ({ s with warpTimer := s.warpTimer - 1 / 60 }, k) := by
  unfold stepTimers
  rw [if_pos h1]
  simp only []
  split
  · next h => exact absurd h h2
  · rfl

/-- A scan tick that does not complete keeps the phase `SCANNING` and
leaves player, shockwaves, warp timer, scan target and asteroids unchanged. -/
theorem stepTimers_scan_tick (env : Env) (s : GameState) (k : ℕ)
    (h1 : s.phase = GamePhase.SCANNING)
    (h2 : ¬(s.scanTimer + 1 / 60 ≥ SCAN_DURATION_SEC)) :
    (stepTimers env s k).1.phase = GamePhase.SCANNING ∧
    (stepTimers env s k).1.player = s.player ∧
    (stepTimers env s k).1.shockwaves = s.shockwaves ∧
    (stepTimers env s k).1.warpTimer = s.warpTimer ∧
    (stepTimers env s k).1.scanTargetId = s.scanTargetId ∧
    (stepTimers env s k).1.asteroids = s.asteroids := by
  unfold stepTimers
  rw [if_neg (show ¬s.phase = GamePhase.WARPING by rw [h1]; decide), if_pos h1]
  simp only []
  obtain ⟨f1, f2, f3, f4, f5, f6, f7⟩ := scanSpawn_fields env
    { s with scanTimer := s.scanTimer + 1 / 60, waveTimer := s.waveTimer + 1 } k
  have f7' : (scanSpawn env
      { s with scanTimer := s.scanTimer + 1 / 60, waveTimer := s.waveTimer + 1 } k).1.scanTimer =
      s.scanTimer + 1 / 60 := f7.trans rfl
  split
  · next h => exact absurd (f7' ▸ h) h2
  · exact ⟨f1.trans h1, f2.trans rfl, f3.trans rfl, f4.trans rfl, f5.trans rfl, f6.trans rfl⟩

/-- Scan completion during the timer stage, given the standing invariant
that the recorded scan target is present among the asteroids: one crystal,
one appended EMP shockwave, phase `IDLE`, warp timer untouched. -/
theorem stepTimers_scan_done (env : Env) (s : GameState) (k : ℕ) (tid : ℕ) (a : Asteroid)
    (h1 : s.phase = GamePhase.SCANNING)
    (h2 : s.scanTimer + 1 / 60 ≥ SCAN_DURATION_SEC)
    (h3 : s.scanTargetId = some tid) (h4 : a ∈ s.asteroids) (h5 : a.id = tid) :
    (stepTimers env s k).1.phase = GamePhase.IDLE ∧
    (stepTimers env s k).1.player.crystals = s.player.crystals + 1 ∧
    (∃ p, (stepTimers env s k).1.shockwaves = s.shockwaves ++
      [{ position := p, radius := 10, maxRadius := max SCREEN_WIDTH SCREEN_HEIGHT * 1.2,
         speed := 25, color := COLORS_shockwave }]) ∧
    (stepTimers env s k).1.warpTimer = s.warpTimer := by
  unfold stepTimers
  rw [if_neg (show ¬s.phase = GamePhase.WARPING by rw [h1]; decide), if_pos h1]
  simp only []
  obtain ⟨f1, f2, f3, f4, f5, f6, f7⟩ := scanSpawn_fields env
    { s with scanTimer := s.scanTimer + 1 / 60, waveTimer := s.waveTimer + 1 } k
  have f7' : (scanSpawn env
      { s with scanTimer := s.scanTimer + 1 / 60, waveTimer := s.waveTimer + 1 } k).1.scanTimer =
      s.scanTimer + 1 / 60 := f7.trans rfl
  split
  · obtain ⟨g1, g2, g3, g4⟩ := scanFinish_spec env
      (scanSpawn env { s with scanTimer := s.scanTimer + 1 / 60, waveTimer := s.waveTimer + 1 } k).1
      (scanSpawn env { s with scanTimer := s.scanTimer + 1 / 60, waveTimer := s.waveTimer + 1 } k).2
      tid a (f5.trans h3) (by rw [f6]; exact h4) h5
    obtain ⟨p, hp⟩ := g3
    refine ⟨g1, ?_, ⟨p, ?_⟩, ?_⟩
    · rw [g2, f2]
    · rw [hp, f3]
    · rw [g4, f4]
  · next h =>
    refine absurd ?_ h
    rw [f7']
    exact h2


/-- On non-paused phases a tick is the timer stage followed by the rest of
the pipeline. -/
theorem updateGame_run (env : Env) (s : GameState)
    (h : ¬(s.phase = GamePhase.INTRO ∨ s.phase = GamePhase.LEVEL_UP ∨
           s.phase = GamePhase.GAME_OVER ∨ s.phase = GamePhase.VICTORY)) :
    updateGame env s = tickRest env (stepTimers env s 0).1 (stepTimers env s 0).2 := by
  unfold updateGame tickRest
  rw [if_neg h]

/-- The shockwave stage leaves the phase alone unless it flips it to
`VICTORY` with the crystal target reached. -/
theorem stepShockwaves_phase (env : Env) (s : GameState) (k : ℕ) :
    (stepShockwaves env s k).1.phase = s.phase ∨
    ((stepShockwaves env s k).1.phase = GamePhase.VICTORY ∧
      TARGET_CRYSTALS ≤ s.player.crystals) := by
  unfold stepShockwaves
  simp only []
  rcases stepShockwavesGo_phase env s.player.crystals s.shockwaves
      { s with shockwaves := [] } k with h | ⟨h, hc⟩
  · exact Or.inl (h.trans rfl)
  · exact Or.inr ⟨h, hc⟩

/-- The shockwave stage leaves crystals, warp timer, scan target and
asteroids unchanged. -/
theorem stepShockwaves_frame4 (env : Env) (s : GameState) (k : ℕ) :
    (stepShockwaves env s k).1.player.crystals = s.player.crystals ∧
    (stepShockwaves env s k).1.warpTimer = s.warpTimer ∧
    (stepShockwaves env s k).1.scanTargetId = s.scanTargetId ∧
    (stepShockwaves env s k).1.asteroids = s.asteroids := by
  unfold stepShockwaves
  simp only []
  obtain ⟨a1, a2, a3, a4⟩ := stepShockwavesGo_frame4 env s.player.crystals s.shockwaves
    { s with shockwaves := [] } k
  exact ⟨a1.trans rfl, a2.trans rfl, a3.trans rfl, a4.trans rfl⟩

/-- Waves surviving the shockwave stage are input waves expanded once within
their max radius. -/
theorem stepShockwaves_waves (env : Env) (s : GameState) (k : ℕ) :
    ∀ x ∈ (stepShockwaves env s k).1.shockwaves, ∃ w0 ∈ s.shockwaves,
      x = { w0 with radius := w0.radius + w0.speed } ∧
      w0.radius + w0.speed ≤ w0.maxRadius := by
  unfold stepShockwaves
  simp only []
  exact fun x hx => stepShockwavesGo_kept env s.player.crystals s.shockwaves
    { s with shockwaves := [] } k x hx

/-- With the crystal target reached, the shockwave stage either expands all
waves in place (phase untouched) or ends in `VICTORY`. -/
theorem stepShockwaves_cases (env : Env) (s : GameState) (k : ℕ)
    (hc : TARGET_CRYSTALS ≤ s.player.crystals) :
    ((stepShockwaves env s k).1.shockwaves =
        s.shockwaves.map (fun w => { w with radius := w.radius + w.speed }) ∧
      (stepShockwaves env s k).1.phase = s.phase) ∨
    (stepShockwaves env s k).1.phase = GamePhase.VICTORY := by
  unfold stepShockwaves
  simp only []
  rcases stepShockwavesGo_cases env s.player.crystals s.shockwaves
      { s with shockwaves := [] } k hc with ⟨hmap, hph⟩ | hvic
  · exact Or.inl ⟨hmap, hph.trans rfl⟩
  · exact Or.inr hvic


/-- The initial state satisfies the invariant. -/
theorem Inv_init : Inv createInitialState := by
  refine ⟨?_, ?_, ?_, ?_, ?_⟩
  · intro w hw
    exact absurd hw (by simp [createInitialState])
  · intro hh
    exact absurd hh (by decide)
  · intro hh
    exact absurd hh (by decide)
  · intro hh
    exact absurd hh (by decide)
  · intro hc
    exact absurd hc (by decide)

/-- `start` preserves the invariant. -/
theorem Inv_cmdStart (s : GameState) (h : Inv s) : Inv (cmdStart s) := by
  obtain ⟨i1, i2, i3, i4, i5⟩ := h
  unfold cmdStart
  split_ifs with hp
  · refine ⟨i1, by simp, ?_, ?_, ?_⟩
    · intro hh
      simp at hh
    · intro hh
      simp at hh
    · intro hc
      exact absurd hp (i5 hc).2.2
  · exact ⟨i1, i2, i3, i4, i5⟩

/-- `applyUpgrade` preserves the invariant (it is a no-op outside
`LEVEL_UP`, which the invariant excludes). -/
theorem Inv_cmdApplyUpgrade (u : UpgradeChoice) (s : GameState) (h : Inv s) :
    Inv (cmdApplyUpgrade u s) := by
  unfold cmdApplyUpgrade
  rw [if_neg h.2.1]
  exact h

/-- `warp` preserves the invariant: entered from `IDLE` with ten crystals
there is a live wave, and the fresh ten-second countdown dwarfs the at most
58-tick remaining lifetime of every wave. -/
theorem Inv_cmdWarp (s : GameState) (h : Inv s) : Inv (cmdWarp s) := by
  obtain ⟨i1, i2, i3, i4, i5⟩ := h
  unfold cmdWarp
  split_ifs with hp
  · refine ⟨i1, by simp, ?_, ?_, ?_⟩
    · intro hh
      simp at hh
    · intro hh
      simp at hh
    · intro hc
      refine ⟨?_, ?_, by simp⟩
      · intro hor
        rcases hor with hh | hh <;> simp at hh
      · intro _
        refine ⟨(i5 hc).1 (Or.inl hp), ?_⟩
        intro w hw
        obtain ⟨hsp, hmr, hlo, hhi⟩ := i1 w hw
        show (1440 - w.radius) / 25 + 1 < 60 * WARP_DURATION_SEC
        rw [show WARP_DURATION_SEC = (10 : ℚ) from rfl]
        linarith
  · exact ⟨i1, i2, i3, i4, i5⟩

/-- `selectScanTarget` preserves the invariant: it records exactly the id of
an asteroid it just verified to exist. -/
theorem Inv_cmdSelect (aid : ℕ) (s : GameState) (h : Inv s) :
    Inv (cmdSelectScanTarget aid s) := by
  obtain ⟨i1, i2, i3, i4, i5⟩ := h
  unfold cmdSelectScanTarget
  split_ifs with hp
  · rcases hf : s.asteroids.find? (fun a => decide (a.id = aid)) with _ | a
    · rw [hf]
      exact ⟨i1, i2, i3, i4, i5⟩
    · rw [hf]
      simp only []
      have ha : a ∈ s.asteroids := List.mem_of_find?_eq_some hf
      have haid : a.id = aid := by simpa using List.find?_some hf
      split_ifs with hsc
      · refine ⟨i1, by simp, ?_, ?_, ?_⟩
        · intro hh
          simp at hh
        · intro _
          refine ⟨aid, rfl, (fun b => if b.id = aid
              then { b with isTarget := true, color := COLORS_asteroidTarget } else b) a,
            List.mem_map_of_mem _ ha, ?_⟩
          simp [haid]
        · intro hc
          refine ⟨?_, ?_, by simp⟩
          · intro _
            exact (i5 hc).1 (Or.inl hp)
          · intro hh
            simp at hh
      · exact ⟨i1, i2, i3, i4, i5⟩
  · exact ⟨i1, i2, i3, i4, i5⟩

/-- Core preservation: given the mid-tick facts that hold after the timer
stage, the rest of the tick pipeline re-establishes the invariant. -/
theorem Inv_tickRest (env : Env) (t : GameState) (k : ℕ)
    (M1 : ∀ w ∈ t.shockwaves, WaveOK w)
    (M2 : t.phase = GamePhase.IDLE ∨ t.phase = GamePhase.WARPING ∨
          t.phase = GamePhase.SCANNING)
    (M3 : t.phase = GamePhase.SCANNING →
      ∃ tid, t.scanTargetId = some tid ∧ ∃ a ∈ t.asteroids, a.id = tid)
    (M4 : TARGET_CRYSTALS ≤ t.player.crystals → t.shockwaves ≠ [])
    (M5 : TARGET_CRYSTALS ≤ t.player.crystals → t.phase = GamePhase.WARPING →
      ∀ w ∈ t.shockwaves, (1440 - w.radius) / 25 < 60 * t.warpTimer) :
    Inv (tickRest env t k) := by
  unfold tickRest
  simp only []
  obtain ⟨e1, e2, e3, e4, e5, e6⟩ :=
    (stepProjectiles_frame env
        (stepEnemies env (stepWeapons env t k).1 (stepWeapons env t k).2).1
        (stepEnemies env (stepWeapons env t k).1 (stepWeapons env t k).2).2).trans
      ((stepEnemies_frame env (stepWeapons env t k).1 (stepWeapons env t k).2).trans
        (stepWeapons_frame env t k))
  generalize hP4 : stepProjectiles env
      (stepEnemies env (stepWeapons env t k).1 (stepWeapons env t k).2).1
      (stepEnemies env (stepWeapons env t k).1 (stepWeapons env t k).2).2 = P4
    at e1 e2 e3 e4 e5 e6 ⊢
  have w5 := stepShockwaves_waves env P4.1 P4.2
  obtain ⟨c5, wt5, sid5, ast5⟩ := stepShockwaves_frame4 env P4.1 P4.2
  have p5 := stepShockwaves_phase env P4.1 P4.2
  have cs5 := stepShockwaves_cases env P4.1 P4.2
  generalize hP5 : stepShockwaves env P4.1 P4.2 = P5 at w5 c5 wt5 sid5 ast5 p5 cs5 ⊢
  obtain ⟨g1, g2, g3, g4, g5, g6⟩ :=
    (stepQueue_frame (stepCosmetic (stepOrbs env (decide (P4.1.shockwaves.length > 0))
        (stepCleanup env (decide (P4.1.shockwaves.length > 0)) P5.1 P5.2).1
        (stepCleanup env (decide (P4.1.shockwaves.length > 0)) P5.1 P5.2).2).1)).trans
      ((stepCosmetic_frame (stepOrbs env (decide (P4.1.shockwaves.length > 0))
          (stepCleanup env (decide (P4.1.shockwaves.length > 0)) P5.1 P5.2).1
          (stepCleanup env (decide (P4.1.shockwaves.length > 0)) P5.1 P5.2).2).1).trans
        ((stepOrbs_frame env (decide (P4.1.shockwaves.length > 0))
            (stepCleanup env (decide (P4.1.shockwaves.length > 0)) P5.1 P5.2).1
            (stepCleanup env (decide (P4.1.shockwaves.length > 0)) P5.1 P5.2).2).trans
          (stepCleanup_frame env (decide (P4.1.shockwaves.length > 0)) P5.1 P5.2)))
  generalize hS9 : stepQueue (stepCosmetic (stepOrbs env (decide (P4.1.shockwaves.length > 0))
      (stepCleanup env (decide (P4.1.shockwaves.length > 0)) P5.1 P5.2).1
      (stepCleanup env (decide (P4.1.shockwaves.length > 0)) P5.1 P5.2).2).1) = s9
    at g1 g2 g3 g4 g5 g6 ⊢
  have WOK : ∀ x ∈ P5.1.shockwaves, WaveOK x := by
    intro x hx
    obtain ⟨w0, hm0, hxe, hbound⟩ := w5 x hx
    rw [e3] at hm0
    obtain ⟨hsp, hmr, hlo, hhi⟩ := M1 w0 hm0
    subst hxe
    rw [hmr] at hbound
    refine ⟨hsp, hmr, ?_, ?_⟩
    · show (10 : ℚ) ≤ w0.radius + w0.speed
      rw [hsp]
      linarith
    · show w0.radius + w0.speed ≤ (1440 : ℚ)
      exact hbound
  rcases stepGameOver_spec s9 with ⟨hdead, heq⟩ | ⟨halive, heq⟩ <;> rw [heq]
  · obtain ⟨d1, d2, d3, d4, d5, d6⟩ :=
      shakeDecay_frame { s9 with phase := GamePhase.GAME_OVER }
    have dp := shakeDecay_player { s9 with phase := GamePhase.GAME_OVER }
    refine ⟨?_, ?_, ?_, ?_, ?_⟩
    · intro x hx
      rw [d3, show ({ s9 with phase := GamePhase.GAME_OVER } : GameState).shockwaves =
        s9.shockwaves from rfl, g3] at hx
      exact WOK x hx
    · rw [d1]
      simp
    · intro _
      rw [dp]
      exact hdead
    · intro hh
      rw [d1] at hh
      simp at hh
    · intro hc
      refine ⟨?_, ?_, ?_⟩
      · intro hor
        rcases hor with hh | hh <;> (rw [d1] at hh; simp at hh)
      · intro hh
        rw [d1] at hh
        simp at hh
      · rw [d1]
        simp
  · obtain ⟨d1, d2, d3, d4, d5, d6⟩ := shakeDecay_frame s9
    have dp := shakeDecay_player s9
    have hph : (shakeDecay s9).phase = P5.1.phase := d1.trans g1
    have hsw : (shakeDecay s9).shockwaves = P5.1.shockwaves := d3.trans g3
    have hcr : (shakeDecay s9).player.crystals = t.player.crystals :=
      d2.trans (g2.trans (c5.trans e2))
    have hwt : (shakeDecay s9).warpTimer = t.warpTimer := d4.trans (g4.trans (wt5.trans e4))
    have hsid : (shakeDecay s9).scanTargetId = t.scanTargetId :=
      d5.trans (g5.trans (sid5.trans e5))
    have hast : (shakeDecay s9).asteroids = t.asteroids := d6.trans (g6.trans (ast5.trans e6))
    refine ⟨?_, ?_, ?_, ?_, ?_⟩
    · intro x hx
      rw [hsw] at hx
      exact WOK x hx
    · rw [hph]
      rcases p5 with h | ⟨h, _⟩
      · rw [h, e1]
        rcases M2 with h2 | h2 | h2 <;> rw [h2] <;> simp
      · rw [h]
        simp
    · intro hh
      rw [hph] at hh
      rcases p5 with h | ⟨h, _⟩
      · rw [h, e1] at hh
        rcases M2 with h2 | h2 | h2 <;> (rw [h2] at hh; simp at hh)
      · rw [h] at hh
        simp at hh
    · intro hh
      rw [hph] at hh
      rcases p5 with h | ⟨h, _⟩
      · rw [h, e1] at hh
        obtain ⟨tid, htid, a, haa, hid⟩ := M3 hh
        exact ⟨tid, hsid.trans htid, a, by rw [hast]; exact haa, hid⟩
      · rw [h] at hh
        simp at hh
    · intro hc
      rw [hcr] at hc
      have hc4 : TARGET_CRYSTALS ≤ P4.1.player.crystals := by
        rw [e2]
        exact hc
      rcases cs5 hc4 with ⟨hmap, hphase5⟩ | hvic
      · rw [e3] at hmap
        have hnn : (shakeDecay s9).shockwaves ≠ [] := by
          rcases hws : t.shockwaves with _ | ⟨y, ys⟩
          · exact absurd hws (M4 hc)
          · rw [hsw, hmap, hws]
            simp
        have hph' : (shakeDecay s9).phase = t.phase := hph.trans (hphase5.trans e1)
        refine ⟨fun _ => hnn, ?_, ?_⟩
        · intro hh
          refine ⟨hnn, ?_⟩
          intro x hx
          rw [hsw, hmap] at hx
          obtain ⟨w0, hw0, hxe⟩ := List.mem_map.mp hx
          obtain ⟨hsp, hmr, hlo, hhi⟩ := M1 w0 hw0
          have hband := M5 hc (hph'.symm.trans hh) w0 hw0
          rw [hwt, ← hxe]
          show (1440 - (w0.radius + w0.speed)) / 25 + 1 < 60 * t.warpTimer
          rw [hsp]
          linarith
        · rw [hph']
          rcases M2 with h2 | h2 | h2 <;> rw [h2] <;> simp
      · have hphv : (shakeDecay s9).phase = GamePhase.VICTORY := hph.trans hvic
        refine ⟨?_, ?_, ?_⟩
        · intro hor
          rcases hor with hh | hh <;> (rw [hphv] at hh; simp at hh)
        · intro hh
          rw [hphv] at hh
          simp at hh
        · rw [hphv]
          simp

/-- A tick preserves the invariant. -/
theorem Inv_tick (env : Env) (s : GameState) (h : Inv s) : Inv (updateGame env s) := by
  obtain ⟨i1, i2, i3, i4, i5⟩ := h
  by_cases hpause : s.phase = GamePhase.INTRO ∨ s.phase = GamePhase.LEVEL_UP ∨
      s.phase = GamePhase.GAME_OVER ∨ s.phase = GamePhase.VICTORY
  · unfold updateGame
    rw [if_pos hpause]
    exact ⟨i1, i2, i3, i4, i5⟩
  · rw [updateGame_run env s hpause]
    push_neg at hpause
    obtain ⟨hni, hnl, hng, hnv⟩ := hpause
    have hlive : s.phase = GamePhase.IDLE ∨ s.phase = GamePhase.WARPING ∨
        s.phase = GamePhase.SCANNING := by
      cases hph : s.phase
      case INTRO => exact absurd hph hni
      case IDLE => exact Or.inl rfl
      case WARPING => exact Or.inr (Or.inl rfl)
      case SCANNING => exact Or.inr (Or.inr rfl)
      case LEVEL_UP => exact absurd hph hnl
      case GAME_OVER => exact absurd hph hng
      case VICTORY => exact absurd hph hnv
    rcases hlive with hphase | hphase | hphase
    · -- IDLE: the timer stage is a no-op
      rw [stepTimers_other env s 0 (by rw [hphase]; decide) (by rw [hphase]; decide)]
      refine Inv_tickRest env s 0 i1 (Or.inl hphase) i4 ?_ ?_
      · intro hc
        exact (i5 hc).1 (Or.inl hphase)
      · intro hc hw
        rw [hphase] at hw
        exact absurd hw (by decide)
    · -- WARPING
      by_cases hdone : s.warpTimer - 1 / 60 ≤ 0
      · -- completion tick: incompatible with ten crystals, so the reset is safe
        have hcs : ¬ TARGET_CRYSTALS ≤ s.player.crystals := by
          intro hc
          obtain ⟨hnn, hband⟩ := (i5 hc).2.1 hphase
          rcases hws : s.shockwaves with _ | ⟨w, ws⟩
          · exact hnn hws
          · have hmem : w ∈ s.shockwaves := by
              rw [hws]
              exact List.mem_cons_self w ws
            have hb := hband w hmem
            have hw1 := (i1 w hmem).2.2.2
            have hq : (0 : ℚ) ≤ (1440 - w.radius) / 25 := by
              apply div_nonneg (by linarith) (by norm_num)
            linarith
        obtain ⟨t1, t2, t3, _, _, _, _⟩ := stepTimers_warp_done env s 0 hphase hdone
        refine Inv_tickRest env _ _ ?_ (Or.inl t1) ?_ ?_ ?_
        · intro w hw
          rw [t3] at hw
          exact absurd hw (List.not_mem_nil w)
        · intro hh
          rw [t1] at hh
          exact absurd hh (by decide)
        · intro hc
          rw [t2] at hc
          exact absurd hc hcs
        · intro hc hw
          rw [t2] at hc
          exact absurd hc hcs
      · -- counting down
        rw [stepTimers_warp_tick env s 0 hphase hdone]
        refine Inv_tickRest env _ _ i1 (Or.inr (Or.inl hphase)) ?_ ?_ ?_
        · intro hh
          have hh' : s.phase = GamePhase.SCANNING := hh
          rw [hphase] at hh'
          exact absurd hh' (by decide)
        · intro hc
          exact ((i5 hc).2.1 hphase).1
        · intro hc hw w hwm
          have hband := ((i5 hc).2.1 hphase).2 w hwm
          show (1440 - w.radius) / 25 < 60 * (s.warpTimer - 1 / 60)
          linarith
    · -- SCANNING
      by_cases hcomp : s.scanTimer + 1 / 60 ≥ SCAN_DURATION_SEC
      · -- completion: crystal and fresh EMP wave
        obtain ⟨tid, htid, a, ha, hid⟩ := i4 hphase
        obtain ⟨t1, t2, t3, t4⟩ := stepTimers_scan_done env s 0 tid a hphase hcomp htid ha hid
        obtain ⟨p, hp⟩ := t3
        refine Inv_tickRest env _ _ ?_ (Or.inl t1) ?_ ?_ ?_
        · intro w hw
          rw [hp] at hw
          rcases List.mem_append.mp hw with hw | hw
          · exact i1 w hw
          · rw [List.mem_singleton] at hw
            subst hw
            refine ⟨rfl, ?_, ?_, ?_⟩
            · show max SCREEN_WIDTH SCREEN_HEIGHT * 1.2 = (1440 : ℚ)
              decide
            · show (10 : ℚ) ≤ 10
              norm_num
            · show (10 : ℚ) ≤ 1440
              norm_num
        · intro hh
          rw [t1] at hh
          exact absurd hh (by decide)
        · intro _
          rw [hp]
          simp
        · intro hc hw
          rw [t1] at hw
          exact absurd hw (by decide)
      · -- scan keeps ticking
        obtain ⟨t1, t2, t3, t4, t5, t6⟩ := stepTimers_scan_tick env s 0 hphase hcomp
        refine Inv_tickRest env _ _ ?_ (Or.inr (Or.inr t1)) ?_ ?_ ?_
        · intro w hw
          rw [t3] at hw
          exact i1 w hw
        · intro _
          obtain ⟨tid, htid, a, ha, hid⟩ := i4 hphase
          exact ⟨tid, t5.trans htid, a, by rw [t6]; exact ha, hid⟩
        · intro hc
          rw [t2] at hc
          rw [t3]
          exact (i5 hc).1 (Or.inr hphase)
        · intro hc hw
          rw [t1] at hw
          exact absurd hw (by decide)

/-- Every reachable state satisfies the inductive invariant. -/
theorem Inv_reachable (s : GameState) (h : Reachable s) : Inv s := by
  induction h with
  | init => exact Inv_init
  | tick env _ ih => exact Inv_tick env _ ih
  | start _ ih => exact Inv_cmdStart _ ih
  | select aid _ ih => exact Inv_cmdSelect aid _ ih
  | warp _ ih => exact Inv_cmdWarp _ ih
  | applyUp u _ ih => exact Inv_cmdApplyUpgrade u _ ih

/-- C2: in every state reachable from the initial state by ticks and the
four external commands, if the crystal target is reached, no shockwave is
active and the player is alive, then the phase is `VICTORY` (stated in
disjunctive form). -/
theorem C2_victory_invariant (s : GameState) (h : Reachable s) :
    s.player.crystals < TARGET_CRYSTALS ∨ s.shockwaves ≠ [] ∨
    s.player.hp ≤ 0 ∨ s.phase = GamePhase.VICTORY := by
  obtain ⟨i1, i2, i3, i4, i5⟩ := Inv_reachable s h
  by_cases hc : TARGET_CRYSTALS ≤ s.player.crystals
  · by_cases hw : s.shockwaves = []
    · obtain ⟨h1, h2, h3⟩ := i5 hc
      cases hph : s.phase
      · exact absurd hph h3
      · exact absurd hw (h1 (Or.inl hph))
      · exact absurd hw (h2 hph).1
      · exact absurd hw (h1 (Or.inr hph))
      · exact absurd hph i2
      · exact Or.inr (Or.inr (Or.inl (i3 hph)))
      · exact Or.inr (Or.inr (Or.inr rfl))
    · exact Or.inr (Or.inl hw)
  · exact Or.inl (not_le.mp hc)

/-- Witness for C2 at the initial state. -/
theorem C2_victory_invariant_witness :
    createInitialState.player.crystals < TARGET_CRYSTALS ∨
    createInitialState.shockwaves ≠ [] ∨
    createInitialState.player.hp ≤ 0 ∨
    createInitialState.phase = GamePhase.VICTORY :=
  C2_victory_invariant createInitialState Reachable.init

/-- A weapon slot never fires without an existing target entry: with an
empty enemy list it can only adjust its cooldown. -/
theorem fireOne_quiet (env : Env) (wType : WeaponType) (nv na : Option ℕ)
    (s : GameState) (k : ℕ) (he : s.enemies = []) :
    (fireOne env wType nv na s k).1.enemies = [] ∧
    (fireOne env wType nv na s k).1.xpOrbs = s.xpOrbs ∧
    (fireOne env wType nv na s k).1.projectiles = s.projectiles ∧
    (fireOne env wType nv na s k).1.levelUpQueued = s.levelUpQueued ∧
    (fireOne env wType nv na s k).1.player.hp = s.player.hp := by
  unfold fireOne
  simp only [he, List.get?_nil]
  repeat' split
  all_goals exact ⟨by simp [he], rfl, rfl, rfl, rfl⟩

/-- The three-slot firing pass on an empty enemy list: no projectile is
added and orbs, the level-up queue and hp are untouched. -/
theorem fireOne3_quiet (env : Env) (nv na : Option ℕ) (s : GameState) (k : ℕ)
    (he : s.enemies = []) :
    (fireOne env WeaponType.LASER nv na
      (fireOne env WeaponType.MISSILE nv na
        (fireOne env WeaponType.MACHINE_GUN nv na s k).1
        (fireOne env WeaponType.MACHINE_GUN nv na s k).2).1
      (fireOne env WeaponType.MISSILE nv na
        (fireOne env WeaponType.MACHINE_GUN nv na s k).1
        (fireOne env WeaponType.MACHINE_GUN nv na s k).2).2).1.enemies = [] ∧
    (fireOne env WeaponType.LASER nv na
      (fireOne env WeaponType.MISSILE nv na
        (fireOne env WeaponType.MACHINE_GUN nv na s k).1
        (fireOne env WeaponType.MACHINE_GUN nv na s k).2).1
      (fireOne env WeaponType.MISSILE nv na
        (fireOne env WeaponType.MACHINE_GUN nv na s k).1
        (fireOne env WeaponType.MACHINE_GUN nv na s k).2).2).1.xpOrbs = s.xpOrbs ∧
    (fireOne env WeaponType.LASER nv na
      (fireOne env WeaponType.MISSILE nv na
        (fireOne env WeaponType.MACHINE_GUN nv na s k).1
        (fireOne env WeaponType.MACHINE_GUN nv na s k).2).1
      (fireOne env WeaponType.MISSILE nv na
        (fireOne env WeaponType.MACHINE_GUN nv na s k).1
        (fireOne env WeaponType.MACHINE_GUN nv na s k).2).2).1.projectiles = s.projectiles ∧
    (fireOne env WeaponType.LASER nv na
      (fireOne env WeaponType.MISSILE nv na
        (fireOne env WeaponType.MACHINE_GUN nv na s k).1
        (fireOne env WeaponType.MACHINE_GUN nv na s k).2).1
      (fireOne env WeaponType.MISSILE nv na
        (fireOne env WeaponType.MACHINE_GUN nv na s k).1
        (fireOne env WeaponType.MACHINE_GUN nv na s k).2).2).1.levelUpQueued =
      s.levelUpQueued ∧
    (fireOne env WeaponType.LASER nv na
      (fireOne env WeaponType.MISSILE nv na
        (fireOne env WeaponType.MACHINE_GUN nv na s k).1
        (fireOne env WeaponType.MACHINE_GUN nv na s k).2).1
      (fireOne env WeaponType.MISSILE nv na
        (fireOne env WeaponType.MACHINE_GUN nv na s k).1
        (fireOne env WeaponType.MACHINE_GUN nv na s k).2).2).1.player.hp =
      s.player.hp := by
  obtain ⟨a1, a2, a3, a4, a5⟩ := fireOne_quiet env WeaponType.MACHINE_GUN nv na s k he
  obtain ⟨b1, b2, b3, b4, b5⟩ := fireOne_quiet env WeaponType.MISSILE nv na
    (fireOne env WeaponType.MACHINE_GUN nv na s k).1
    (fireOne env WeaponType.MACHINE_GUN nv na s k).2 a1
  obtain ⟨c1, c2, c3, c4, c5⟩ := fireOne_quiet env WeaponType.LASER nv na
    (fireOne env WeaponType.MISSILE nv na
      (fireOne env WeaponType.MACHINE_GUN nv na s k).1
      (fireOne env WeaponType.MACHINE_GUN nv na s k).2).1
    (fireOne env WeaponType.MISSILE nv na
      (fireOne env WeaponType.MACHINE_GUN nv na s k).1
      (fireOne env WeaponType.MACHINE_GUN nv na s k).2).2 b1
  exact ⟨c1, c2.trans (b2.trans a2), c3.trans (b3.trans a3), c4.trans (b4.trans a4),
    c5.trans (b5.trans a5)⟩

/-- The weapon stage on an empty enemy list: nothing fires. -/
theorem stepWeapons_quiet (env : Env) (s : GameState) (k : ℕ) (he : s.enemies = []) :
    (stepWeapons env s k).1.enemies = [] ∧
    (stepWeapons env s k).1.xpOrbs = s.xpOrbs ∧
    (stepWeapons env s k).1.projectiles = s.projectiles ∧
    (stepWeapons env s k).1.levelUpQueued = s.levelUpQueued ∧
    (stepWeapons env s k).1.player.hp = s.player.hp := by
  unfold stepWeapons
  simp only [he, List.get?_nil]
  rcases hnv : nearestVisibleIdx s with _ | j <;>
    rcases hna : nearestAnyIdx s with _ | j' <;>
      simp only [Option.none_bind, Option.some_bind] <;>
      exact fireOne3_quiet env _ _ s k he

/-- The enemy stage is the identity on an empty enemy list. -/
theorem stepEnemies_nil (env : Env) (s : GameState) (k : ℕ) (he : s.enemies = []) :
    stepEnemies env s k = ({ s with enemies := [] }, k) := by
  unfold stepEnemies
  rw [he]
  rfl

/-- The projectile stage is the identity on an empty projectile list. -/
theorem stepProjectiles_nil (env : Env) (s : GameState) (k : ℕ)
    (hp : s.projectiles = []) :
    stepProjectiles env s k = ({ s with projectiles := [] }, k) := by
  unfold stepProjectiles
  rw [hp]
  rfl

/-- The shockwave stage is the identity on an empty shockwave list. -/
theorem stepShockwaves_nil (env : Env) (s : GameState) (k : ℕ)
    (hs : s.shockwaves = []) :
    stepShockwaves env s k = ({ s with shockwaves := [] }, k) := by
  unfold stepShockwaves
  rw [hs]
  rfl

/-- The cleanup stage is the identity on an empty enemy list. -/
theorem stepCleanup_nil (env : Env) (active : Bool) (s : GameState) (k : ℕ)
    (he : s.enemies = []) :
    stepCleanup env active s k = ({ s with enemies := [] }, k) := by
  unfold stepCleanup
  rw [he]
  rfl

/-- The orb stage on an empty orb list only advances the magnet timer. -/
theorem stepOrbs_quiet (env : Env) (active : Bool) (s : GameState) (k : ℕ)
    (ho : s.xpOrbs = []) :
    (stepOrbs env active s k).1.xpOrbs = [] ∧
    (stepOrbs env active s k).1.levelUpQueued = s.levelUpQueued ∧
    (stepOrbs env active s k).1.player = s.player ∧
    (stepOrbs env active s k).1.enemies = s.enemies ∧
    (stepOrbs env active s k).1.projectiles = s.projectiles ∧
    (stepOrbs env active s k).1.phase = s.phase ∧
    (stepOrbs env active s k).1.shockwaves = s.shockwaves := by
  unfold stepOrbs
  simp only [ho, List.countP_nil, List.map_nil]
  repeat' split
  all_goals exact ⟨rfl, rfl, rfl, rfl, rfl, rfl, rfl⟩

/-- The queue stage is the identity when no level-up is queued. -/
theorem stepQueue_false (s : GameState) (hq : s.levelUpQueued = false) :
    stepQueue s = s := by
  unfold stepQueue
  rw [hq]
  rfl

/-- Camera-shake decay touches no entity list and no flag. -/
theorem shakeDecay_lists (x : GameState) :
    (shakeDecay x).enemies = x.enemies ∧ (shakeDecay x).xpOrbs = x.xpOrbs ∧
    (shakeDecay x).projectiles = x.projectiles ∧
    (shakeDecay x).levelUpQueued = x.levelUpQueued := by
  unfold shakeDecay
  simp only []
  split_ifs <;> exact ⟨rfl, rfl, rfl, rfl⟩

/-- C10: when the warp countdown completes on a tick in `WARPING` with the
player alive, the tick ends with the arena reset - phase `IDLE` and the
enemy, orb, projectile and shockwave lists empty - and `levelUpQueued`
forced back to `false`: a level-up earned but not yet promoted before the
warp is silently discarded, since the emptied orb list cannot re-queue it
later in the same tick. -/
theorem C10_warp_reset (env : Env) (s : GameState)
    (h1 : s.phase = GamePhase.WARPING) (h2 : s.warpTimer - 1 / 60 ≤ 0)
    (h3 : 0 < s.player.hp) :
    (updateGame env s).levelUpQueued = false ∧
    (updateGame env s).phase = GamePhase.IDLE ∧
    (updateGame env s).enemies = [] ∧
    (updateGame env s).xpOrbs = [] ∧
    (updateGame env s).projectiles = [] ∧
    (updateGame env s).shockwaves = [] := by
  have hpause : ¬(s.phase = GamePhase.INTRO ∨ s.phase = GamePhase.LEVEL_UP ∨
      s.phase = GamePhase.GAME_OVER ∨ s.phase = GamePhase.VICTORY) := by
    rw [h1]
    decide
  rw [updateGame_run env s hpause]
  unfold tickRest
  simp only []
  obtain ⟨t1, t2, t3, t4, t5, t6, t7⟩ := stepTimers_warp_done env s 0 h1 h2
  generalize hT : stepTimers env s 0 = T at t1 t2 t3 t4 t5 t6 t7 ⊢
  obtain ⟨w1, w2, w3, w4, w5h⟩ := stepWeapons_quiet env T.1 T.2 t4
  obtain ⟨f1, _, f3, _, _, _⟩ := stepWeapons_frame env T.1 T.2
  generalize hW : stepWeapons env T.1 T.2 = W at w1 w2 w3 w4 w5h f1 f3 ⊢
  have wOrbs : W.1.xpOrbs = [] := w2.trans t5
  have wProj : W.1.projectiles = [] := w3.trans t6
  have wSw : W.1.shockwaves = [] := f3.trans t3
  have wLuq : W.1.levelUpQueued = false := w4.trans t7
  have wPhase : W.1.phase = GamePhase.IDLE := f1.trans t1
  have wHp : W.1.player.hp = s.player.hp := by rw [w5h, t2]
  have e0 := stepEnemies_nil env W.1 W.2 w1
  have eEn : (stepEnemies env W.1 W.2).1.enemies = [] := by rw [e0]
  have eOrbs : (stepEnemies env W.1 W.2).1.xpOrbs = [] := by rw [e0]; exact wOrbs
  have eProj : (stepEnemies env W.1 W.2).1.projectiles = [] := by rw [e0]; exact wProj
  have eSw : (stepEnemies env W.1 W.2).1.shockwaves = [] := by rw [e0]; exact wSw
  have eLuq : (stepEnemies env W.1 W.2).1.levelUpQueued = false := by rw [e0]; exact wLuq
  have ePh : (stepEnemies env W.1 W.2).1.phase = GamePhase.IDLE := by rw [e0]; exact wPhase
  have eHp : (stepEnemies env W.1 W.2).1.player.hp = s.player.hp := by rw [e0]; exact wHp
  generalize hE : stepEnemies env W.1 W.2 = E at eEn eOrbs eProj eSw eLuq ePh eHp ⊢
  have p0 := stepProjectiles_nil env E.1 E.2 eProj
  have pEn : (stepProjectiles env E.1 E.2).1.enemies = [] := by rw [p0]; exact eEn
  have pOrbs : (stepProjectiles env E.1 E.2).1.xpOrbs = [] := by rw [p0]; exact eOrbs
  have pProj : (stepProjectiles env E.1 E.2).1.projectiles = [] := by rw [p0]
  have pSw : (stepProjectiles env E.1 E.2).1.shockwaves = [] := by rw [p0]; exact eSw
  have pLuq : (stepProjectiles env E.1 E.2).1.levelUpQueued = false := by rw [p0]; exact eLuq
  have pPh : (stepProjectiles env E.1 E.2).1.phase = GamePhase.IDLE := by rw [p0]; exact ePh
  have pHp : (stepProjectiles env E.1 E.2).1.player.hp = s.player.hp := by rw [p0]; exact eHp
  generalize hP : stepProjectiles env E.1 E.2 = P at pEn pOrbs pProj pSw pLuq pPh pHp ⊢
  have v0 := stepShockwaves_nil env P.1 P.2 pSw
  have vEn : (stepShockwaves env P.1 P.2).1.enemies = [] := by rw [v0]; exact pEn
  have vOrbs : (stepShockwaves env P.1 P.2).1.xpOrbs = [] := by rw [v0]; exact pOrbs
  have vProj : (stepShockwaves env P.1 P.2).1.projectiles = [] := by rw [v0]; exact pProj
  have vSw : (stepShockwaves env P.1 P.2).1.shockwaves = [] := by rw [v0]
  have vLuq : (stepShockwaves env P.1 P.2).1.levelUpQueued = false := by rw [v0]; exact pLuq
  have vPh : (stepShockwaves env P.1 P.2).1.phase = GamePhase.IDLE := by rw [v0]; exact pPh
  have vHp : (stepShockwaves env P.1 P.2).1.player.hp = s.player.hp := by rw [v0]; exact pHp
  generalize hV : stepShockwaves env P.1 P.2 = V at vEn vOrbs vProj vSw vLuq vPh vHp ⊢
  have c0 := stepCleanup_nil env (decide (P.1.shockwaves.length > 0)) V.1 V.2 vEn
  have cEn : (stepCleanup env (decide (P.1.shockwaves.length > 0)) V.1 V.2).1.enemies = [] := by
    rw [c0]
  have cOrbs : (stepCleanup env (decide (P.1.shockwaves.length > 0)) V.1 V.2).1.xpOrbs = [] := by
    rw [c0]; exact vOrbs
  have cProj : (stepCleanup env (decide (P.1.shockwaves.length > 0)) V.1
      V.2).1.projectiles = [] := by
    rw [c0]; exact vProj
  have cSw : (stepCleanup env (decide (P.1.shockwaves.length > 0)) V.1
      V.2).1.shockwaves = [] := by
    rw [c0]; exact vSw
  have cLuq : (stepCleanup env (decide (P.1.shockwaves.length > 0)) V.1
      V.2).1.levelUpQueued = false := by
    rw [c0]; exact vLuq
  have cPh : (stepCleanup env (decide (P.1.shockwaves.length > 0)) V.1
      V.2).1.phase = GamePhase.IDLE := by
    rw [c0]; exact vPh
  have cHp : (stepCleanup env (decide (P.1.shockwaves.length > 0)) V.1
      V.2).1.player.hp = s.player.hp := by
    rw [c0]; exact vHp
  generalize hC : stepCleanup env (decide (P.1.shockwaves.length > 0)) V.1 V.2 = C
    at cEn cOrbs cProj cSw cLuq cPh cHp ⊢
  obtain ⟨o1, o2, o3, o4, o5, o6, o7⟩ :=
    stepOrbs_quiet env (decide (P.1.shockwaves.length > 0)) C.1 C.2 cOrbs
  generalize hO : stepOrbs env (decide (P.1.shockwaves.length > 0)) C.1 C.2 = O
    at o1 o2 o3 o4 o5 o6 o7 ⊢
  have kEn : (stepCosmetic O.1).enemies = [] := o4.trans cEn
  have kOrbs : (stepCosmetic O.1).xpOrbs = [] := o1
  have kProj : (stepCosmetic O.1).projectiles = [] := o5.trans cProj
  have kSw : (stepCosmetic O.1).shockwaves = [] := o7.trans cSw
  have kLuq : (stepCosmetic O.1).levelUpQueued = false := o2.trans cLuq
  have kPh : (stepCosmetic O.1).phase = GamePhase.IDLE := o6.trans cPh
  have kHp : (stepCosmetic O.1).player.hp = s.player.hp := by
    rw [stepCosmetic_player, o3]
    exact cHp
  rw [stepQueue_false (stepCosmetic O.1) kLuq]
  rcases stepGameOver_spec (stepCosmetic O.1) with ⟨hdead, _⟩ | ⟨_, heq⟩
  · rw [kHp] at hdead
    exact absurd h3 (not_lt.mpr hdead)
  · rw [heq]
    obtain ⟨l1, l2, l3, l4⟩ := shakeDecay_lists (stepCosmetic O.1)
    obtain ⟨df1, _, df3, _, _, _⟩ := shakeDecay_frame (stepCosmetic O.1)
    exact ⟨l4.trans kLuq, df1.trans kPh, l1.trans kEn, l2.trans kOrbs, l3.trans kProj,
      df3.trans kSw⟩

/-- Witness for C10: a concrete warping world one sub-tick from warp
completion, with a level-up queued. -/
theorem C10_warp_reset_witness :
    stateC10.phase = GamePhase.WARPING ∧ stateC10.warpTimer - 1 / 60 ≤ 0 ∧
    0 < stateC10.player.hp ∧ stateC10.levelUpQueued = true ∧
    ((updateGame env0 stateC10).levelUpQueued = false ∧
     (updateGame env0 stateC10).phase = GamePhase.IDLE ∧
     (updateGame env0 stateC10).enemies = [] ∧
     (updateGame env0 stateC10).xpOrbs = [] ∧
     (updateGame env0 stateC10).projectiles = [] ∧
     (updateGame env0 stateC10).shockwaves = []) :=
  ⟨by decide, by decide, by decide, by decide,
    C10_warp_reset env0 stateC10 (by decide) (by decide) (by decide)⟩

/-- C4: a tick in the `LEVEL_UP` phase returns the state unchanged - the
early return precedes even the camera-shake decay. -/
theorem C4_levelup_tick_noop (env : Env) (s : GameState)
    (h : s.phase = GamePhase.LEVEL_UP) : updateGame env s = s := by
  unfold updateGame
  rw [if_pos (Or.inr (Or.inl h))]

/-- Witness for C4: a concrete paused world with nonzero camera shake. -/
theorem C4_levelup_tick_noop_witness :
    stateC4.phase = GamePhase.LEVEL_UP ∧ stateC4.cameraShake = 10 ∧
    updateGame env0 stateC4 = stateC4 :=
  ⟨by decide, by decide, C4_levelup_tick_noop env0 stateC4 (by decide)⟩

/-- C5 (amended): a weapon slot with a valid target for its targeting rule
strictly out of range decrements its cooldown when the cooldown is
positive, and leaves it unchanged when the weapon was already ready - the
decrementing `else` belongs to the outer eligibility test. -/
theorem C5_cooldown_out_of_range (env : Env) (wType : WeaponType) (nv na : Option ℕ)
    (s : GameState) (k : ℕ) (i : ℕ) (e : Enemy)
    (hidx : (if wType = WeaponType.MISSILE then na else nv) = some i)
    (htgt : s.enemies.get? i = some e)
    (hlvl : 0 < (s.player.weapons.get wType).level)
    (hrange : distLeB s.player.position e.position (s.player.weapons.get wType).range = false) :
    ((fireOne env wType nv na s k).1.player.weapons.get wType).cooldown =
      (if (s.player.weapons.get wType).cooldown ≤ 0
        then (s.player.weapons.get wType).cooldown
        else (s.player.weapons.get wType).cooldown - 1) := by
  unfold fireOne
  simp only []
  rw [hidx]
  simp only []
  rw [htgt]
  simp only []
  by_cases hcd : (s.player.weapons.get wType).cooldown ≤ 0
  · rw [if_pos ⟨hlvl, hcd⟩, hrange]
    simp only [Bool.false_eq_true, if_false]
    rw [if_pos hcd]
  · rw [if_neg (fun hand => hcd hand.2), if_neg hcd]
    exact congrArg Weapon.cooldown (PlayerWeapons.get_set_same s.player.weapons wType _)


/-- Witness for C5: the ready machine gun of `stateC5` with its target 500
away (range 400) keeps cooldown 0 - no decrement below zero. -/
theorem C5_cooldown_out_of_range_witness :
    (stateC5.player.weapons.get WeaponType.MACHINE_GUN).cooldown = 0 ∧
    stateC5.enemies.get? 0 = some eC5 ∧
    distLeB stateC5.player.position eC5.position
      (stateC5.player.weapons.get WeaponType.MACHINE_GUN).range = false ∧
    ((fireOne env0 WeaponType.MACHINE_GUN (some 0) (some 0) stateC5 0).1.player.weapons.get
        WeaponType.MACHINE_GUN).cooldown =
      (if (stateC5.player.weapons.get WeaponType.MACHINE_GUN).cooldown ≤ 0
        then (stateC5.player.weapons.get WeaponType.MACHINE_GUN).cooldown
        else (stateC5.player.weapons.get WeaponType.MACHINE_GUN).cooldown - 1) :=
  ⟨by decide, by decide, by decide,
    C5_cooldown_out_of_range env0 WeaponType.MACHINE_GUN (some 0) (some 0) stateC5 0 0 eC5
      (by decide) (by decide) (by decide) (by decide)⟩

/-- The ring sweep maps every enemy independently: hp is forced to 0 exactly
inside the strict open band `(radius - 2*speed, radius)` of the already
expanded wave. -/
theorem shockwaveSweep_enemies (env : Env) (wave : Shockwave) (l : List Enemy)
    (s : GameState) (k : ℕ) :
    (shockwaveSweep env wave l s k).1 = l.map (fun e =>
      if distLtB e.position wave.position wave.radius &&
         distGtB e.position wave.position (wave.radius - wave.speed * 2) then
        { e with hp := 0 } else e) := by
  induction l generalizing s k with
  | nil => rfl
  | cons e es ih =>
    unfold shockwaveSweep
    simp only []
    split_ifs with hb
    · rw [List.map_cons, ih]
      simp only []
      rw [if_pos hb]
    · rw [List.map_cons, ih]
      simp only []
      rw [if_neg hb]

/-- C8 (amended): on a tick of the shockwave stage with a single stored
wave, an enemy's hp is forced to 0 exactly when its distance `d` to the
wave centre satisfies `R - 2*speed < d < R`, where `R = radius + speed` is
the radius after this tick's expansion - equivalently
`radius - speed < d < radius + speed` in terms of the stored radius; both
band ends are strict. -/
theorem C8_shockwave_band (env : Env) (s : GameState) (k : ℕ) (w : Shockwave)
    (hw : s.shockwaves = [w]) :
    (stepShockwaves env s k).1.enemies = s.enemies.map (fun e =>
      if distLtB e.position w.position (w.radius + w.speed) &&
         distGtB e.position w.position (w.radius + w.speed - w.speed * 2) then
        { e with hp := 0 } else e) := by
  unfold stepShockwaves
  simp only []
  rw [hw]
  unfold stepShockwavesGo
  simp only []
  unfold stepShockwavesGo
  simp only []
  split_ifs <;> simp [shockwaveSweep_enemies]


/-- Witness for C8: the enemy at distance 45 is destroyed, the one at
distance 10 is untouched. -/
theorem C8_shockwave_band_witness :
    stateC8w.shockwaves = [waveC8] ∧
    (stepShockwaves env0 stateC8w 0).1.enemies =
      stateC8w.enemies.map (fun e =>
        if distLtB e.position waveC8.position (waveC8.radius + waveC8.speed) &&
           distGtB e.position waveC8.position
             (waveC8.radius + waveC8.speed - waveC8.speed * 2) then
          { e with hp := 0 } else e) ∧
    (stepShockwaves env0 stateC8w 0).1.enemies.map Enemy.hp = [0, 30] :=
  ⟨by decide, C8_shockwave_band env0 stateC8w 0 waveC8 (by decide), by decide⟩

/-- C1 (amended): a direct missile hit damages the found enemy and then
applies 50% splash to *every* enemy within 80 units of the impact,
including the directly-hit one, which therefore takes the direct damage
plus the splash on top. -/
theorem C1_missile_splash (env : Env) (p : Projectile) (s : GameState) (k : ℕ)
    (i : ℕ) (e : Enemy)
    (hpe : p.isEnemy = false)
    (hty : p.type = ProjectileType.MISSILE)
    (hfind : s.enemies.findIdx?
      (fun x => distLtB p.position x.position (x.radius + p.radius)) = some i)
    (hget : s.enemies.get? i = some e)
    (hdist : distLtB p.position e.position 80 = true) :
    (projectileHit env p s k).1 = true ∧
    (projectileHit env p s k).2.1.enemies =
      (s.enemies.set i { e with hp := e.hp - p.damage }).map (fun subE =>
        if distLtB p.position subE.position 80 then
          { subE with hp := subE.hp - p.damage * 0.5 } else subE) ∧
    (projectileHit env p s k).2.1.enemies.get? i =
      some { e with hp := e.hp - p.damage - p.damage * 0.5 } := by
  unfold projectileHit
  simp only []
  have hc1 : (!p.isEnemy && decide (p.type ≠ ProjectileType.MISSILE) &&
      s.asteroids.any fun ast =>
        distLtB p.position ast.position (ast.radius + p.radius)) = false := by
    rw [hty]
    simp
  rw [hc1, hpe]
  simp only [Bool.false_eq_true, if_false]
  rw [hfind]
  simp only []
  rw [hget]
  simp only []
  rw [if_pos hty]
  refine ⟨trivial, by simp, ?_⟩
  simp only [addFloatingText_enemies, spawnParticles_enemies]
  obtain ⟨hlt, -⟩ := List.get?_eq_some.mp hget
  rw [List.get?_map, List.get?_set_eq, hget]
  simp [hdist]


/-- Witness for C1: the direct-hit enemy ends at 100 - 80 - 40 = -20 hp
(direct damage plus splash on itself), the neighbour at 100 - 40 = 60. -/
theorem C1_missile_splash_witness :
    pC1.isEnemy = false ∧
    pC1.type = ProjectileType.MISSILE ∧
    stateC1w.enemies.findIdx?
      (fun x => distLtB pC1.position x.position (x.radius + pC1.radius)) = some 0 ∧
    stateC1w.enemies.get? 0 = some (mkRanged 1 ⟨705, 360⟩ 100) ∧
    distLtB pC1.position (mkRanged 1 ⟨705, 360⟩ 100).position 80 = true ∧
    ((projectileHit env0 pC1 stateC1w 0).1 = true ∧
     (projectileHit env0 pC1 stateC1w 0).2.1.enemies =
       (stateC1w.enemies.set 0
         { mkRanged 1 ⟨705, 360⟩ 100 with
           hp := (mkRanged 1 ⟨705, 360⟩ 100).hp - pC1.damage }).map (fun subE =>
         if distLtB pC1.position subE.position 80 then
           { subE with hp := subE.hp - pC1.damage * 0.5 } else subE) ∧
     (projectileHit env0 pC1 stateC1w 0).2.1.enemies.get? 0 =
       some { mkRanged 1 ⟨705, 360⟩ 100 with
              hp := (mkRanged 1 ⟨705, 360⟩ 100).hp - pC1.damage - pC1.damage * 0.5 }) ∧
    (projectileHit env0 pC1 stateC1w 0).2.1.enemies.map Enemy.hp = [-20, 60] :=
  ⟨by decide, by decide, by decide, by decide, by decide,
    C1_missile_splash env0 pC1 stateC1w 0 0 (mkRanged 1 ⟨705, 360⟩ 100)
      (by decide) (by decide) (by decide) (by decide) (by decide),
    by decide⟩

@[simp] theorem scanSpawn_player (env : Env) (s : GameState) (k : ℕ) :
    (scanSpawn env s k).1.player = s.player :=
  (scanSpawn_fields env s k).2.1

@[simp] theorem scanFinish_hp (env : Env) (s : GameState) (k : ℕ) :
    (scanFinish env s k).1.player.hp = s.player.hp := by
  unfold scanFinish
  simp only []
  repeat' split
  all_goals simp

@[simp] theorem scanFinish_maxHp (env : Env) (s : GameState) (k : ℕ) :
    (scanFinish env s k).1.player.maxHp = s.player.maxHp := by
  unfold scanFinish
  simp only []
  repeat' split
  all_goals simp

/-- The timer stage never changes hp or max hp. -/
theorem stepTimers_player_hp (env : Env) (s : GameState) (k : ℕ) :
    (stepTimers env s k).1.player.hp = s.player.hp ∧
    (stepTimers env s k).1.player.maxHp = s.player.maxHp := by
  unfold stepTimers
  simp only []
  repeat' split
  all_goals constructor
  all_goals simp

@[simp] theorem fireOne_hp (env : Env) (wType : WeaponType) (nv na : Option ℕ)
    (s : GameState) (k : ℕ) :
    (fireOne env wType nv na s k).1.player.hp = s.player.hp := by
  unfold fireOne
  simp only []
  repeat' split
  all_goals simp

@[simp] theorem fireOne_maxHp (env : Env) (wType : WeaponType) (nv na : Option ℕ)
    (s : GameState) (k : ℕ) :
    (fireOne env wType nv na s k).1.player.maxHp = s.player.maxHp := by
  unfold fireOne
  simp only []
  repeat' split
  all_goals simp

@[simp] theorem stepWeapons_hp (env : Env) (s : GameState) (k : ℕ) :
    (stepWeapons env s k).1.player.hp = s.player.hp := by
  unfold stepWeapons
  simp only []
  repeat' split
  all_goals simp

@[simp] theorem stepWeapons_maxHp (env : Env) (s : GameState) (k : ℕ) :
    (stepWeapons env s k).1.player.maxHp = s.player.maxHp := by
  unfold stepWeapons
  simp only []
  repeat' split
  all_goals simp

@[simp] theorem enemyBossStep_player (env : Env) (e : Enemy) (s : GameState) (k : ℕ) :
    (enemyBossStep env e s k).2.1.player = s.player := by
  unfold enemyBossStep
  simp only []
  repeat' split
  all_goals simp

@[simp] theorem enemyMoveStep_player (env : Env) (e : Enemy) (s : GameState) (k : ℕ) :
    (enemyMoveStep env e s k).2.1.player = s.player := by
  unfold enemyMoveStep
  simp only []
  repeat' split
  all_goals simp

/-- Contact damage only lowers hp, and never touches max hp. -/
theorem enemyContactStep_hp (e : Enemy) (s : GameState) :
    (enemyContactStep e s).player.hp ≤ s.player.hp ∧
    (enemyContactStep e s).player.maxHp = s.player.maxHp := by
  unfold enemyContactStep
  split_ifs
  · constructor
    · show s.player.hp - 0.5 ≤ s.player.hp
      linarith
    · rfl
  · exact ⟨le_refl _, rfl⟩

theorem stepEnemyOne_hp (env : Env) (e : Enemy) (s : GameState) (k : ℕ) :
    (stepEnemyOne env e s k).2.1.player.hp ≤ s.player.hp ∧
    (stepEnemyOne env e s k).2.1.player.maxHp = s.player.maxHp := by
  unfold stepEnemyOne
  simp only []
  obtain ⟨h1, h2⟩ := enemyContactStep_hp
    (enemyMoveStep env (enemyBossStep env e s k).1 (enemyBossStep env e s k).2.1
      (enemyBossStep env e s k).2.2).1
    (enemyMoveStep env (enemyBossStep env e s k).1 (enemyBossStep env e s k).2.1
      (enemyBossStep env e s k).2.2).2.1
  simp only [enemyMoveStep_player, enemyBossStep_player] at h1 h2
  exact ⟨h1, h2⟩

theorem stepEnemiesGo_hp (env : Env) (l : List Enemy) (s : GameState) (k : ℕ) :
    (stepEnemiesGo env l s k).2.1.player.hp ≤ s.player.hp ∧
    (stepEnemiesGo env l s k).2.1.player.maxHp = s.player.maxHp := by
  induction l generalizing s k with
  | nil => exact ⟨le_refl _, rfl⟩
  | cons e es ih =>
    unfold stepEnemiesGo
    simp only []
    obtain ⟨a1, a2⟩ := stepEnemyOne_hp env e s k
    obtain ⟨b1, b2⟩ := ih (stepEnemyOne env e s k).2.1 (stepEnemyOne env e s k).2.2
    exact ⟨b1.trans a1, b2.trans a2⟩

theorem stepEnemies_hp (env : Env) (s : GameState) (k : ℕ) :
    (stepEnemies env s k).1.player.hp ≤ s.player.hp ∧
    (stepEnemies env s k).1.player.maxHp = s.player.maxHp := by
  unfold stepEnemies
  simp only []
  obtain ⟨a1, a2⟩ := stepEnemiesGo_hp env s.enemies { s with enemies := [] } k
  exact ⟨a1, a2⟩

@[simp] theorem integrateProjectile_isEnemy (env : Env) (p : Projectile)
    (enemies : List Enemy) : (integrateProjectile env p enemies).isEnemy = p.isEnemy := by
  unfold integrateProjectile
  simp only []
  repeat' split
  all_goals simp

@[simp] theorem integrateProjectile_damage (env : Env) (p : Projectile)
    (enemies : List Enemy) : (integrateProjectile env p enemies).damage = p.damage := by
  unfold integrateProjectile
  simp only []
  repeat' split
  all_goals simp

/-- One projectile collision can only lower the player's hp (enemy
projectile damage is nonnegative by hypothesis) and never touches max hp. -/
theorem projectileHit_hp (env : Env) (p : Projectile) (s : GameState) (k : ℕ)
    (hd : p.isEnemy = true → 0 ≤ p.damage) :
    (projectileHit env p s k).2.1.player.hp ≤ s.player.hp ∧
    (projectileHit env p s k).2.1.player.maxHp = s.player.maxHp := by
  unfold projectileHit
  simp only []
  repeat' split
  all_goals first
    | exact ⟨le_refl _, rfl⟩
    | (refine ⟨?_, ?_⟩ <;> (simp; done))
    | (rename_i he hhit
       constructor
       · simp only [addFloatingText_player]
         show s.player.hp - p.damage ≤ s.player.hp
         linarith [hd he]
       · simp)

theorem stepProjectilesGo_hp (env : Env) (l : List Projectile) (s : GameState) (k : ℕ)
    (hl : ∀ p ∈ l, p.isEnemy = true → 0 ≤ p.damage) :
    (stepProjectilesGo env l s k).2.1.player.hp ≤ s.player.hp ∧
    (stepProjectilesGo env l s k).2.1.player.maxHp = s.player.maxHp := by
  induction l generalizing s k with
  | nil => exact ⟨le_refl _, rfl⟩
  | cons p ps ih =>
    unfold stepProjectilesGo
    simp only []
    obtain ⟨a1, a2⟩ := ih s k (fun q hq => hl q (List.mem_cons_of_mem _ hq))
    have hdp : (integrateProjectile env p
        (stepProjectilesGo env ps s k).2.1.enemies).isEnemy = true →
        0 ≤ (integrateProjectile env p (stepProjectilesGo env ps s k).2.1.enemies).damage := by
      intro hie
      rw [integrateProjectile_damage]
      exact hl p (List.mem_cons_self _ _) (by rwa [integrateProjectile_isEnemy] at hie)
    obtain ⟨b1, b2⟩ := projectileHit_hp env
      (integrateProjectile env p (stepProjectilesGo env ps s k).2.1.enemies)
      (stepProjectilesGo env ps s k).2.1 (stepProjectilesGo env ps s k).2.2 hdp
    constructor
    · split <;> exact b1.trans a1
    · split <;> exact b2.trans a2

theorem stepProjectiles_hp (env : Env) (s : GameState) (k : ℕ)
    (hl : ∀ p ∈ s.projectiles, p.isEnemy = true → 0 ≤ p.damage) :
    (stepProjectiles env s k).1.player.hp ≤ s.player.hp ∧
    (stepProjectiles env s k).1.player.maxHp = s.player.maxHp := by
  unfold stepProjectiles
  simp only []
  obtain ⟨a1, a2⟩ := stepProjectilesGo_hp env s.projectiles { s with projectiles := [] } k hl
  exact ⟨a1, a2⟩

theorem stepShockwavesGo_player (env : Env) (c : ℕ) (ws : List Shockwave)
    (s : GameState) (k : ℕ) :
    (stepShockwavesGo env c ws s k).2.1.player = s.player := by
  induction ws generalizing s k with
  | nil => rfl
  | cons w rest ih =>
    unfold stepShockwavesGo
    simp only []
    have hsw := shockwaveSweep_player env { w with radius := w.radius + w.speed }
      (stepShockwavesGo env c rest s k).2.1.enemies
      (stepShockwavesGo env c rest s k).2.1 (stepShockwavesGo env c rest s k).2.2
    split
    · split
      · simpa [hsw] using ih s k
      · simpa [hsw] using ih s k
    · simpa [hsw] using ih s k

theorem stepShockwaves_player (env : Env) (s : GameState) (k : ℕ) :
    (stepShockwaves env s k).1.player = s.player := by
  unfold stepShockwaves
  simp only []
  exact stepShockwavesGo_player env s.player.crystals s.shockwaves
    { s with shockwaves := [] } k

theorem stepCleanupGo_player (env : Env) (active : Bool) (l : List Enemy)
    (s : GameState) (k : ℕ) :
    (stepCleanupGo env active l s k).2.1.player = s.player := by
  induction l generalizing s k with
  | nil => rfl
  | cons e es ih =>
    unfold stepCleanupGo
    simp only []
    have hih := ih s k
    repeat' split
    all_goals simp [hih]

theorem stepCleanup_player (env : Env) (active : Bool) (s : GameState) (k : ℕ) :
    (stepCleanup env active s k).1.player = s.player := by
  unfold stepCleanup
  simp only []
  exact stepCleanupGo_player env active s.enemies { s with enemies := [] } k

/-- Each resolved level fully heals, so the hp bound survives the loop. -/
theorem resolveLevelUps_hp (fuel : ℕ) (p : Player) (q : Bool)
    (h : p.hp ≤ p.maxHp) :
    (resolveLevelUps fuel p q).1.hp ≤ (resolveLevelUps fuel p q).1.maxHp := by
  induction fuel generalizing p q with
  | zero => exact h
  | succ n ih =>
    unfold resolveLevelUps
    simp only []
    split_ifs with hx
    · exact ih _ _ (le_refl _)
    · exact h

theorem collectOrb_hp (o : XpOrb) (p : Player) (q : Bool) (h : p.hp ≤ p.maxHp) :
    (collectOrb o p q).1.hp ≤ (collectOrb o p q).1.maxHp := by
  unfold collectOrb
  exact resolveLevelUps_hp _ _ _ h

set_option maxHeartbeats 1000000 in
theorem stepOrbsGo_hp (env : Env) (l : List XpOrb) (s : GameState) (k : ℕ)
    (h : s.player.hp ≤ s.player.maxHp) :
    (stepOrbsGo env l s k).2.1.player.hp ≤ (stepOrbsGo env l s k).2.1.player.maxHp := by
  induction l generalizing s k with
  | nil => exact h
  | cons o os ih =>
    unfold stepOrbsGo
    simp only []
    have hih := ih s k h
    repeat' split
    all_goals first
      | exact hih
      | exact collectOrb_hp _ _ _ hih

theorem stepOrbs_hp (env : Env) (active : Bool) (s : GameState) (k : ℕ)
    (h : s.player.hp ≤ s.player.maxHp) :
    (stepOrbs env active s k).1.player.hp ≤ (stepOrbs env active s k).1.player.maxHp := by
  unfold stepOrbs
  simp only []
  repeat' split
  all_goals exact stepOrbsGo_hp env _ _ _ h

/-- Firing adds only player-side projectiles, so "enemy projectiles have
nonnegative damage" survives the weapon stage. -/
theorem fireOne_projPred (env : Env) (wType : WeaponType) (nv na : Option ℕ)
    (s : GameState) (k : ℕ)
    (h : ∀ q ∈ s.projectiles, q.isEnemy = true → 0 ≤ q.damage) :
    ∀ q ∈ (fireOne env wType nv na s k).1.projectiles, q.isEnemy = true → 0 ≤ q.damage := by
  unfold fireOne
  simp only []
  repeat' split
  all_goals intro q hq
  all_goals simp only [addFloatingText_projectiles, spawnParticles_projectiles] at hq
  all_goals first
    | exact h q hq
    | (rcases List.mem_append.mp hq with hq | hq
       · exact h q hq
       · rw [List.mem_singleton] at hq
         subst hq
         intro hie
         simp at hie)

theorem stepWeapons_projPred (env : Env) (s : GameState) (k : ℕ)
    (h : ∀ q ∈ s.projectiles, q.isEnemy = true → 0 ≤ q.damage) :
    ∀ q ∈ (stepWeapons env s k).1.projectiles, q.isEnemy = true → 0 ≤ q.damage := by
  unfold stepWeapons
  simp only []
  repeat' split
  all_goals exact fireOne_projPred env _ _ _ _ _ (fireOne_projPred env _ _ _ _ _
    (fireOne_projPred env _ _ _ _ _ h))

theorem enemyBossStep_projPred (env : Env) (e : Enemy) (s : GameState) (k : ℕ)
    (h : ∀ q ∈ s.projectiles, q.isEnemy = true → 0 ≤ q.damage) :
    ∀ q ∈ (enemyBossStep env e s k).2.1.projectiles, q.isEnemy = true → 0 ≤ q.damage := by
  unfold enemyBossStep
  simp only []
  repeat' split
  all_goals intro q hq
  all_goals simp only [spawnEnemy_projectiles] at hq
  all_goals exact h q hq

theorem enemyMoveStep_projPred (env : Env) (e : Enemy) (s : GameState) (k : ℕ)
    (h : ∀ q ∈ s.projectiles, q.isEnemy = true → 0 ≤ q.damage) :
    ∀ q ∈ (enemyMoveStep env e s k).2.1.projectiles, q.isEnemy = true → 0 ≤ q.damage := by
  unfold enemyMoveStep
  simp only []
  repeat' split
  all_goals intro q hq
  all_goals first
    | exact h q hq
    | (rcases List.mem_append.mp hq with hq | hq
       · exact h q hq
       · rw [List.mem_singleton] at hq
         subst hq
         intro _
         norm_num)

theorem enemyContactStep_projPred (e : Enemy) (s : GameState)
    (h : ∀ q ∈ s.projectiles, q.isEnemy = true → 0 ≤ q.damage) :
    ∀ q ∈ (enemyContactStep e s).projectiles, q.isEnemy = true → 0 ≤ q.damage := by
  unfold enemyContactStep
  split_ifs
  · exact h
  · exact h

theorem stepEnemiesGo_projPred (env : Env) (l : List Enemy) (s : GameState) (k : ℕ)
    (h : ∀ q ∈ s.projectiles, q.isEnemy = true → 0 ≤ q.damage) :
    ∀ q ∈ (stepEnemiesGo env l s k).2.1.projectiles, q.isEnemy = true → 0 ≤ q.damage := by
  induction l generalizing s k with
  | nil => exact h
  | cons e es ih =>
    unfold stepEnemiesGo
    simp only []
    unfold stepEnemyOne
    simp only []
    exact ih _ _ (enemyContactStep_projPred _ _ (enemyMoveStep_projPred env _ _ _
      (enemyBossStep_projPred env _ _ _ h)))

theorem stepEnemies_projPred (env : Env) (s : GameState) (k : ℕ)
    (h : ∀ q ∈ s.projectiles, q.isEnemy = true → 0 ≤ q.damage) :
    ∀ q ∈ (stepEnemies env s k).1.projectiles, q.isEnemy = true → 0 ≤ q.damage := by
  unfold stepEnemies
  simp only []
  exact stepEnemiesGo_projPred env s.enemies { s with enemies := [] } k h

@[simp] theorem scanSpawn_projectiles (env : Env) (s : GameState) (k : ℕ) :
    (scanSpawn env s k).1.projectiles = s.projectiles := by
  unfold scanSpawn
  simp only []
  split_ifs <;> simp

@[simp] theorem scanFinish_projectiles (env : Env) (s : GameState) (k : ℕ) :
    (scanFinish env s k).1.projectiles = s.projectiles := by
  unfold scanFinish
  simp only []
  repeat' split
  all_goals simp

/-- The timer stage either keeps the projectile list or clears it. -/
theorem stepTimers_projectiles (env : Env) (s : GameState) (k : ℕ) :
    (stepTimers env s k).1.projectiles = s.projectiles ∨
    (stepTimers env s k).1.projectiles = [] := by
  unfold stepTimers
  simp only []
  repeat' split
  all_goals first
    | (right; rfl)
    | (left; simp)

/-- C3 (amended): over one non-paused tick, hp never exceeds max hp, and a
tick that ends with hp ≤ 0 ends in `GAME_OVER`; within the dying tick every
damage source still applies, so hp can undershoot 0 by more than the last
increment. -/
theorem C3_hp_clamped (env : Env) (s : GameState)
    (hpause : ¬(s.phase = GamePhase.INTRO ∨ s.phase = GamePhase.LEVEL_UP ∨
      s.phase = GamePhase.GAME_OVER ∨ s.phase = GamePhase.VICTORY))
    (hmax : s.player.hp ≤ s.player.maxHp)
    (hproj : ∀ p ∈ s.projectiles, p.isEnemy = true → 0 ≤ p.damage) :
    (updateGame env s).player.hp ≤ (updateGame env s).player.maxHp ∧
    ((updateGame env s).player.hp ≤ 0 → (updateGame env s).phase = GamePhase.GAME_OVER) := by
  rw [updateGame_run env s hpause]
  unfold tickRest
  simp only []
  obtain ⟨t1, t2⟩ := stepTimers_player_hp env s 0
  have tpred : ∀ q ∈ (stepTimers env s 0).1.projectiles, q.isEnemy = true → 0 ≤ q.damage := by
    rcases stepTimers_projectiles env s 0 with hh | hh <;> rw [hh]
    · exact hproj
    · intro q hq
      exact absurd hq (List.not_mem_nil q)
  generalize hT : stepTimers env s 0 = T at t1 t2 tpred ⊢
  have w1 : (stepWeapons env T.1 T.2).1.player.hp = s.player.hp :=
    (stepWeapons_hp env T.1 T.2).trans t1
  have w2 : (stepWeapons env T.1 T.2).1.player.maxHp = s.player.maxHp :=
    (stepWeapons_maxHp env T.1 T.2).trans t2
  have wpred := stepWeapons_projPred env T.1 T.2 tpred
  generalize hW : stepWeapons env T.1 T.2 = W at w1 w2 wpred ⊢
  obtain ⟨e1, e2⟩ := stepEnemies_hp env W.1 W.2
  have epred := stepEnemies_projPred env W.1 W.2 wpred
  generalize hE : stepEnemies env W.1 W.2 = E at e1 e2 epred ⊢
  obtain ⟨p1, p2⟩ := stepProjectiles_hp env E.1 E.2 epred
  generalize hP : stepProjectiles env E.1 E.2 = P at p1 p2 ⊢
  have v0 := stepShockwaves_player env P.1 P.2
  generalize hV : stepShockwaves env P.1 P.2 = V at v0 ⊢
  have c0 := stepCleanup_player env (decide (P.1.shockwaves.length > 0)) V.1 V.2
  generalize hC : stepCleanup env (decide (P.1.shockwaves.length > 0)) V.1 V.2 = C at c0 ⊢
  have cinv : C.1.player.hp ≤ C.1.player.maxHp := by
    rw [c0, v0]
    calc P.1.player.hp ≤ E.1.player.hp := p1
    _ ≤ W.1.player.hp := e1
    _ = s.player.hp := w1
    _ ≤ s.player.maxHp := hmax
    _ = W.1.player.maxHp := w2.symm
    _ = E.1.player.maxHp := e2.symm
    _ = P.1.player.maxHp := p2.symm
  have oinv := stepOrbs_hp env (decide (P.1.shockwaves.length > 0)) C.1 C.2 cinv
  generalize hO : stepOrbs env (decide (P.1.shockwaves.length > 0)) C.1 C.2 = O at oinv ⊢
  have xinv : (stepQueue (stepCosmetic O.1)).player.hp ≤
      (stepQueue (stepCosmetic O.1)).player.maxHp := by
    rw [stepQueue_player, stepCosmetic_player]
    exact oinv
  generalize hX : stepQueue (stepCosmetic O.1) = X at xinv ⊢
  rcases stepGameOver_spec X with ⟨hdead, heq⟩ | ⟨halive, heq⟩ <;> rw [heq]
  · constructor
    · rw [shakeDecay_player]
      exact xinv
    · intro _
      exact (shakeDecay_frame _).1.trans rfl
  · constructor
    · rw [shakeDecay_player]
      exact xinv
    · intro hh
      rw [shakeDecay_player] at hh
      exact absurd hh halive

/-- Witness for C3: a ship at 0.2 hp with two contacting enemies ends the
tick at -0.8 hp - within the bound and in `GAME_OVER`. -/
theorem C3_hp_clamped_witness :
    stateC3.player.hp ≤ stateC3.player.maxHp ∧
    ((updateGame env0 stateC3).player.hp ≤ (updateGame env0 stateC3).player.maxHp ∧
     ((updateGame env0 stateC3).player.hp ≤ 0 →
       (updateGame env0 stateC3).phase = GamePhase.GAME_OVER)) ∧
    (updateGame env0 stateC3).player.hp = -(4 / 5) ∧
    (updateGame env0 stateC3).phase = GamePhase.GAME_OVER :=
  ⟨by decide, C3_hp_clamped env0 stateC3 (by decide) (by decide) (by decide),
    by decide, by decide⟩

/-- With enough fuel, the level-up loop lands in `0 ≤ xp < maxXp` and keeps
the threshold at least 1. -/
theorem resolveLevelUps_spec (fuel : ℕ) (p : Player) (q : Bool)
    (hfuel : p.xp < (fuel : ℚ))
    (hxp : 0 ≤ p.xp) (hmx : 1 ≤ p.maxXp) :
    0 ≤ (resolveLevelUps fuel p q).1.xp ∧
    (resolveLevelUps fuel p q).1.xp < (resolveLevelUps fuel p q).1.maxXp ∧
    1 ≤ (resolveLevelUps fuel p q).1.maxXp := by
  induction fuel generalizing p q with
  | zero =>
    push_cast at hfuel
    linarith
  | succ n ih =>
    unfold resolveLevelUps
    simp only []
    split_ifs with hge
    · refine ih _ _ ?_ ?_ ?_
      · show p.xp - p.maxXp < (n : ℚ)
        push_cast at hfuel
        linarith
      · show (0 : ℚ) ≤ p.xp - p.maxXp
        linarith
      · show (1 : ℚ) ≤ floorQ (p.maxXp * PLAYER_CONFIG_xpGrowth)
        unfold floorQ
        rw [show PLAYER_CONFIG_xpGrowth = (2 : ℚ) from rfl]
        have h2 : (2 : ℚ) ≤ p.maxXp * 2 := by linarith
        have := Int.le_floor.mpr (show ((2 : ℤ) : ℚ) ≤ p.maxXp * 2 by push_cast; linarith)
        exact_mod_cast le_trans (by norm_num) this
    · exact ⟨hxp, not_le.mp hge, hmx⟩

/-- Collecting one nonnegative orb preserves the xp invariant: the fuel
`⌈xp⌉ + 1` strictly dominates the new xp. -/
theorem collectOrb_spec (o : XpOrb) (p : Player) (q : Bool)
    (hval : 0 ≤ o.value) (hxp : 0 ≤ p.xp) (hlt : p.xp < p.maxXp) (hmx : 1 ≤ p.maxXp) :
    0 ≤ (collectOrb o p q).1.xp ∧
    (collectOrb o p q).1.xp < (collectOrb o p q).1.maxXp ∧
    1 ≤ (collectOrb o p q).1.maxXp := by
  unfold collectOrb
  simp only []
  have hx0 : (0 : ℚ) ≤ p.xp + o.value := add_nonneg hxp hval
  refine resolveLevelUps_spec _ _ _ ?_ hx0 hmx
  show p.xp + o.value < ((⌈p.xp + o.value⌉.toNat + 1 : ℕ) : ℚ)
  have hceil := Int.le_ceil (p.xp + o.value)
  have hnn : 0 ≤ ⌈p.xp + o.value⌉ := Int.ceil_nonneg hx0
  have hcast : ((⌈p.xp + o.value⌉.toNat : ℕ) : ℚ) = ((⌈p.xp + o.value⌉ : ℤ) : ℚ) := by
    exact_mod_cast congrArg (fun z : ℤ => (z : ℚ)) (Int.toNat_of_nonneg hnn)
  push_cast
  rw [hcast]
  linarith

theorem stepOrbsGo_xp (env : Env) (l : List XpOrb) (s : GameState) (k : ℕ)
    (hl : ∀ o ∈ l, 0 ≤ o.value)
    (h1 : 0 ≤ s.player.xp) (h2 : s.player.xp < s.player.maxXp)
    (h3 : 1 ≤ s.player.maxXp) :
    0 ≤ (stepOrbsGo env l s k).2.1.player.xp ∧
    (stepOrbsGo env l s k).2.1.player.xp < (stepOrbsGo env l s k).2.1.player.maxXp ∧
    1 ≤ (stepOrbsGo env l s k).2.1.player.maxXp := by
  induction l generalizing s k with
  | nil => exact ⟨h1, h2, h3⟩
  | cons o os ih =>
    unfold stepOrbsGo
    simp only []
    obtain ⟨a1, a2, a3⟩ := ih s k (fun x hx => hl x (List.mem_cons_of_mem _ hx)) h1 h2 h3
    have hov := hl o (List.mem_cons_self _ _)
    repeat' split
    all_goals first
      | exact ⟨a1, a2, a3⟩
      | exact collectOrb_spec _ _ _ hov a1 a2 a3

theorem magnetizeNth_values (n : ℕ) (pred : XpOrb → Bool) (l : List XpOrb)
    (h : ∀ o ∈ l, 0 ≤ o.value) : ∀ o ∈ magnetizeNth n pred l, 0 ≤ o.value := by
  induction l generalizing n with
  | nil =>
    intro o ho
    simp [magnetizeNth] at ho
  | cons a as ih =>
    intro o ho
    unfold magnetizeNth at ho
    split_ifs at ho
    · rcases List.mem_cons.mp ho with h' | h'
      · subst h'
        exact h a (List.mem_cons_self _ _)
      · exact h o (List.mem_cons_of_mem _ h')
    · rcases List.mem_cons.mp ho with h' | h'
      · subst h'
        exact h o (List.mem_cons_self _ _)
      · exact ih _ (fun x hx => h x (List.mem_cons_of_mem _ hx)) o h'
    · rcases List.mem_cons.mp ho with h' | h'
      · subst h'
        exact h o (List.mem_cons_self _ _)
      · exact ih _ (fun x hx => h x (List.mem_cons_of_mem _ hx)) o h'

/-- C7: the whole orb-collection stage keeps `0 ≤ xp < maxXp` (and a
threshold of at least 1), under the standing invariants that orb values are
nonnegative and the bounds held before the tick. -/
theorem C7_xp_invariant (env : Env) (active : Bool) (s : GameState) (k : ℕ)
    (horb : ∀ o ∈ s.xpOrbs, 0 ≤ o.value)
    (h1 : 0 ≤ s.player.xp) (h2 : s.player.xp < s.player.maxXp)
    (h3 : 1 ≤ s.player.maxXp) :
    0 ≤ (stepOrbs env active s k).1.player.xp ∧
    (stepOrbs env active s k).1.player.xp < (stepOrbs env active s k).1.player.maxXp ∧
    1 ≤ (stepOrbs env active s k).1.player.maxXp := by
  unfold stepOrbs
  simp only []
  repeat' split
  all_goals apply stepOrbsGo_xp
  all_goals first
    | exact h1
    | exact h2
    | exact h3
    | exact horb
    | exact magnetizeNth_values _ _ _ horb
    | (intro o ho
       obtain ⟨o0, ho0, hoe⟩ := List.mem_map.mp ho
       subst hoe
       first
         | exact horb o0 ho0
         | exact magnetizeNth_values _ _ _ horb o0 ho0)


/-- Witness for C7: collecting the orb crosses the 100-xp threshold; the
loop resolves to 5/200. -/
theorem C7_xp_invariant_witness :
    (0 ≤ stateC7.player.xp ∧ stateC7.player.xp < stateC7.player.maxXp ∧
      1 ≤ stateC7.player.maxXp) ∧
    (0 ≤ (stepOrbs env0 false stateC7 0).1.player.xp ∧
     (stepOrbs env0 false stateC7 0).1.player.xp <
       (stepOrbs env0 false stateC7 0).1.player.maxXp ∧
     1 ≤ (stepOrbs env0 false stateC7 0).1.player.maxXp) ∧
    (stepOrbs env0 false stateC7 0).1.player.xp = 5 ∧
    (stepOrbs env0 false stateC7 0).1.player.maxXp = 200 ∧
    (stepOrbs env0 false stateC7 0).1.player.level = 2 :=
  ⟨⟨by decide, by decide, by decide⟩,
    C7_xp_invariant env0 false stateC7 0 (by decide) (by decide) (by decide) (by decide),
    by decide, by decide, by decide⟩
